import Mathlib

/-!
Shallow embedding of `src/src/nodelets/stereo_odometry.cpp`
(class `rtabmap_ros::StereoOdometry`), covering the two frame callbacks
(`callback`, four-stream path, lines 162-310; `callbackRGBD`, composite
path, lines 312-462) and the synchronizer flush (`flushCallbacks`,
lines 465-480).

Conventions of the embedding:
* ROS timestamps are modelled as `Nat` (ros::Time is totally ordered;
  the code only compares and copies stamps).
* Doubles (baselines, translations, intrinsics) are modelled as `ℚ`;
  the code only compares them with `==`, `<=`, `>` and copies them.
* `tf` lookups (`getTransform`) are an external environment function
  `String → String → Nat → Option Transform`; `none` models a null
  transform result.
* Pixel conversion performed by cv_bridge is abstracted by an
  environment function `conv : String → String → List Nat → List Nat`
  (source encoding, target encoding, pixel data); the embedding tracks
  the resulting encoding tag exactly as cv_bridge does, and a
  pass-through (empty target string) returns the input buffer unchanged.
* The two `static bool` one-shot warning flags of each callback are an
  explicit `WarnState` threaded through calls; each call also reports
  the list of diagnostics it logged and the tf queries it issued.
-/

namespace StereoOdometry

/-- sensor_msgs image encoding constant. -/
def TYPE_8UC1 : String := "8UC1"

/-- sensor_msgs image encoding constant. -/
def MONO8 : String := "mono8"

/-- sensor_msgs image encoding constant. -/
def MONO16 : String := "mono16"

/-- sensor_msgs image encoding constant. -/
def BGR8 : String := "bgr8"

/-- sensor_msgs image encoding constant. -/
def RGB8 : String := "rgb8"

/-- sensor_msgs image encoding constant. -/
def BGRA8 : String := "bgra8"

/-- sensor_msgs image encoding constant. -/
def RGBA8 : String := "rgba8"

/-- A sensor_msgs Image as the callbacks read it: encoding tag, header
stamp, header frame id, and the pixel buffer (`data`). -/
structure ImageMsg where
  encoding : String
  stamp : Nat
  frame_id : String
  data : List Nat
deriving DecidableEq, Repr

/-- The fields of sensor_msgs CameraInfo that the callbacks read:
header frame id and stamp, the intrinsics of the projection matrix P
(fx, fy, cx, cy), the extrinsic row entry Tx = P(0,3), and image size. -/
structure CameraInfoMsg where
  frame_id : String
  stamp : Nat
  fx : ℚ
  fy : ℚ
  cx : ℚ
  cy : ℚ
  Tx : ℚ
  width : Nat
  height : Nat
deriving DecidableEq, Repr

/-- An rtabmap Transform as the callbacks use it: the translation along
the stereo (x) axis and whether the transform is the identity. A null
transform is modelled as `none` at the lookup site. -/
structure Transform where
  x : ℚ
  isIdentity : Bool
deriving DecidableEq, Repr

/-- The fields of rtabmap StereoCameraModel that the callbacks read:
left intrinsics, baseline, local (body-to-sensor) transform, left image
size. -/
structure StereoCameraModel where
  fx : ℚ
  fy : ℚ
  cx : ℚ
  cy : ℚ
  baseline : ℚ
  localTransform : Transform
  width : Nat
  height : Nat
deriving DecidableEq, Repr

/-- Modelled from the spec: `rtabmap_ros::stereoCameraModelFromROS`
(MsgConversion.cpp, a file of this repository not under src/) derives
the stereo model from the two camera descriptors: intrinsics and image
size from the left descriptor, the supplied local transform, and the
baseline from the right descriptor's extrinsic row
(baseline = -P(0,3)/P(0,0) = -Tx/fx of the right camera info).
The optional stereo extrinsic transform passed by the four-stream path
is not needed by any claim and is not modelled beyond being accepted. -/
def stereoCameraModelFromROS (left right : CameraInfoMsg)
    (localTransform : Transform) (_stereoTransform : Option Transform) :
    StereoCameraModel :=
  { fx := left.fx
    fy := left.fy
    cx := left.cx
    cy := left.cy
    baseline := -right.Tx / right.fx
    localTransform := localTransform
    width := left.width
    height := left.height }

/-- The two static one-shot flags of a callback: `warned` guards the
fallback-baseline warning (lines 242-251 / 381-390), `shown` guards the
large-baseline warning (lines 272-280 / 411-419). -/
structure WarnState where
  warned : Bool
  shown : Bool
deriving DecidableEq, Repr

/-- Diagnostics logged by the callbacks, one per logging site. -/
inductive Diag where
  | badEncoding
  | emptyImages
  | missingCalibration
  | degenerateCalibration
  | invalidBaseline
  | fallbackBaseline
  | largeBaseline
deriving DecidableEq, Repr

/-- A cv_bridge image: encoding tag plus pixel buffer. -/
structure CvImage where
  encoding : String
  data : List Nat
deriving DecidableEq, Repr

/-- The configuration and external collaborators a callback reads:
pause gate, the Rtabmap/ImagesAlreadyRectified parameter, the
keep_color parameter, the odometry frame id, the tf lookup and the
cv_bridge pixel conversion. -/
structure Env where
  isPaused : Bool
  alreadyRectified : Bool
  keepColor : Bool
  frameId : String
  getTransform : String → String → Nat → Option Transform
  conv : String → String → List Nat → List Nat

/-- cv_bridge toCvCopy: an empty target encoding means no conversion
(the buffer is copied in its source encoding); otherwise the image is
converted to the target encoding. -/
def toCvCopy (conv : String → String → List Nat → List Nat)
    (img : ImageMsg) (target : String) : CvImage :=
  if target = "" then { encoding := img.encoding, data := img.data }
  else { encoding := target, data := conv img.encoding target img.data }

/-- cv_bridge cvtColor: converts an image to the target encoding. -/
def cvtColor (conv : String → String → List Nat → List Nat)
    (img : CvImage) (target : String) : CvImage :=
  { encoding := target, data := conv img.encoding target img.data }

/-- Lines 171-184 / 321-334: the accepted set of input encodings. -/
def supportedEncoding (e : String) : Bool :=
  e == TYPE_8UC1 || e == MONO8 || e == MONO16 || e == BGR8 ||
  e == RGB8 || e == BGRA8 || e == RGBA8

/-- The data handed to the estimator (`rtabmap::SensorData`,
lines 293-298 / 445-450): the two converted images, the stereo model,
and the frame timestamp. -/
structure SensorData where
  left : CvImage
  right : CvImage
  model : StereoCameraModel
  stamp : Nat
deriving DecidableEq, Repr

/-- The std_msgs Header handed to `processData`
(lines 300-302 / 452-454). -/
structure Header where
  stamp : Nat
  frame_id : String
deriving DecidableEq, Repr

/-- The outcome of one callback invocation; each dropped constructor
corresponds to one `return` site of the source. -/
inductive CallbackResult where
  | paused
  | droppedBadEncoding
  | droppedNoBodyTransform
  | droppedEmptyImages
  | droppedMissingCalibration
  | droppedDegenerateCalibration
  | droppedInvalidBaseline
  | dispatched (data : SensorData) (header : Header)
deriving DecidableEq, Repr

/-- Everything observable about one callback invocation: the updated
one-shot flags, the diagnostics logged, the tf queries issued (target
frame, source frame, stamp), whether the fallback-baseline branch
replaced the model, and the outcome. -/
structure CallbackOutput where
  state : WarnState
  diags : List Diag
  tfQueries : List (String × String × Nat)
  usedFallback : Bool
  result : CallbackResult
deriving Repr

/-- Result of the fallback-baseline block (lines 233-261 / 372-400). -/
structure FallbackResult where
  state : WarnState
  diags : List Diag
  queries : List (String × String × Nat)
  used : Bool
  model : StereoCameraModel
deriving Repr

/-- Lines 233-261 (and identically 372-400): if the derived model's
baseline is exactly zero and images are already rectified, look up the
left-to-right transform at the left camera info's stamp; if it is
non-null with positive x translation, warn once (static flag) and
rebuild the model with that x as baseline, keeping the derived
intrinsics, local transform and image size. -/
def recoverBaseline (env : Env) (st : WarnState)
    (leftInfo rightInfo : CameraInfoMsg) (m : StereoCameraModel) :
    FallbackResult :=
  if m.baseline = 0 ∧ env.alreadyRectified then
    let q : List (String × String × Nat) :=
      [(leftInfo.frame_id, rightInfo.frame_id, leftInfo.stamp)]
    match env.getTransform leftInfo.frame_id rightInfo.frame_id leftInfo.stamp with
    | some tr =>
      if tr.x > 0 then
        { state := { st with warned := true }
          diags := if st.warned then [] else [Diag.fallbackBaseline]
          queries := q
          used := true
          model :=
            { fx := m.fx, fy := m.fy, cx := m.cx, cy := m.cy
              baseline := tr.x
              localTransform := m.localTransform
              width := m.width, height := m.height } }
      else { state := st, diags := [], queries := q, used := false, model := m }
    | none => { state := st, diags := [], queries := q, used := false, model := m }
  else { state := st, diags := [], queries := [], used := false, model := m }

/-- Lines 270-281 (and identically 409-420): if the baseline exceeds
10 meters, warn once (static flag); never a failure. -/
def largeBaselineCheck (st : WarnState) (m : StereoCameraModel) :
    WarnState × List Diag :=
  if m.baseline > 10 then
    if st.shown then (st, [])
    else ({ st with shown := true }, [Diag.largeBaseline])
  else (st, [])

/-- Lines 283-285 / 426-433: the conversion target for the left image:
none (pass-through) for 8-bit single-channel input; bgr8 when keep_color
is set and the input is not 16-bit grayscale; mono8 otherwise. -/
def leftTarget (keepColor : Bool) (e : String) : String :=
  if e = TYPE_8UC1 ∨ e = MONO8 then ""
  else if keepColor ∧ e ≠ MONO16 then BGR8 else MONO8

/-- Lines 287-288: the conversion target for the right image in the
four-stream path: none (pass-through) for 8-bit single-channel input,
mono8 otherwise — never a color target. -/
def rightTarget (e : String) : String :=
  if e = TYPE_8UC1 ∨ e = MONO8 then "" else MONO8

/-- Lines 422-434: left-image normalization of the RGBD path (cvtColor
instead of toCvCopy, same targets as the four-stream path). -/
def normalizeLeftRGBD (conv : String → String → List Nat → List Nat)
    (keepColor : Bool) (img : ImageMsg) : CvImage :=
  if img.encoding ≠ TYPE_8UC1 ∧ img.encoding ≠ MONO8 then
    if keepColor ∧ img.encoding ≠ MONO16 then
      cvtColor conv { encoding := img.encoding, data := img.data } BGR8
    else
      cvtColor conv { encoding := img.encoding, data := img.data } MONO8
  else { encoding := img.encoding, data := img.data }

/-- Lines 435-440: right-image normalization of the RGBD path. The
source gates the conversion on the encoding of the LEFT image (lines
436-437 test imageRectLeft), which the caller passes as
`gateEncoding`; the image converted is the right one. -/
def normalizeRightRGBD (conv : String → String → List Nat → List Nat)
    (gateEncoding : String) (img : ImageMsg) : CvImage :=
  if gateEncoding ≠ TYPE_8UC1 ∧ gateEncoding ≠ MONO8 then
    cvtColor conv { encoding := img.encoding, data := img.data } MONO8
  else { encoding := img.encoding, data := img.data }

/-- Line 191 / 341: the frame timestamp is the later of the two image
stamps. -/
def frameStamp (l r : ImageMsg) : Nat :=
  if l.stamp > r.stamp then l.stamp else r.stamp

/-- Lines 162-310: the four-stream callback. Checks, in source order:
pause gate; accepted encodings (error logged); frame stamp = later of
the two image stamps; body-frame transform lookup (silent drop when
null); non-empty pixel buffers (warning logged); when not already
rectified, the right-to-left calibration transform (error on null,
error on identity); stereo model derivation; fallback baseline
recovery; invalid-baseline validation (error logged); large-baseline
one-shot warning; encoding conversion of both images; dispatch. -/
def callback (env : Env) (st : WarnState)
    (imageRectLeft imageRectRight : ImageMsg)
    (cameraInfoLeft cameraInfoRight : CameraInfoMsg) : CallbackOutput :=
  if env.isPaused then
    { state := st, diags := [], tfQueries := [], usedFallback := false
      result := CallbackResult.paused }
  else if !supportedEncoding imageRectLeft.encoding ||
          !supportedEncoding imageRectRight.encoding then
    { state := st, diags := [Diag.badEncoding], tfQueries := []
      usedFallback := false, result := CallbackResult.droppedBadEncoding }
  else
    match env.getTransform env.frameId imageRectLeft.frame_id
        (frameStamp imageRectLeft imageRectRight) with
    | none =>
      { state := st, diags := []
        tfQueries := [(env.frameId, imageRectLeft.frame_id,
          frameStamp imageRectLeft imageRectRight)]
        usedFallback := false
        result := CallbackResult.droppedNoBodyTransform }
    | some localTransform =>
      if imageRectLeft.data.length ≠ 0 ∧ imageRectRight.data.length ≠ 0 then
        if ¬ env.alreadyRectified then
          match env.getTransform cameraInfoRight.frame_id cameraInfoLeft.frame_id
              cameraInfoLeft.stamp with
          | none =>
            { state := st, diags := [Diag.missingCalibration]
              tfQueries := [(env.frameId, imageRectLeft.frame_id,
                  frameStamp imageRectLeft imageRectRight),
                (cameraInfoRight.frame_id, cameraInfoLeft.frame_id,
                  cameraInfoLeft.stamp)]
              usedFallback := false
              result := CallbackResult.droppedMissingCalibration }
          | some stereoTransform =>
            if stereoTransform.isIdentity then
              { state := st, diags := [Diag.degenerateCalibration]
                tfQueries := [(env.frameId, imageRectLeft.frame_id,
                    frameStamp imageRectLeft imageRectRight),
                  (cameraInfoRight.frame_id, cameraInfoLeft.frame_id,
                    cameraInfoLeft.stamp)]
                usedFallback := false
                result := CallbackResult.droppedDegenerateCalibration }
            else
              callbackRest env st imageRectLeft imageRectRight
                cameraInfoLeft cameraInfoRight
                (frameStamp imageRectLeft imageRectRight)
                [(env.frameId, imageRectLeft.frame_id,
                    frameStamp imageRectLeft imageRectRight),
                  (cameraInfoRight.frame_id, cameraInfoLeft.frame_id,
                    cameraInfoLeft.stamp)]
                localTransform (some stereoTransform)
        else
          callbackRest env st imageRectLeft imageRectRight
            cameraInfoLeft cameraInfoRight
            (frameStamp imageRectLeft imageRectRight)
            [(env.frameId, imageRectLeft.frame_id,
              frameStamp imageRectLeft imageRectRight)]
            localTransform none
      else
        { state := st, diags := [Diag.emptyImages]
          tfQueries := [(env.frameId, imageRectLeft.frame_id,
            frameStamp imageRectLeft imageRectRight)]
          usedFallback := false, result := CallbackResult.droppedEmptyImages }
where
  /-- Lines 231-303: model derivation, fallback, validation, one-shot
  large-baseline warning, conversions, dispatch. -/
  callbackRest (env : Env) (st : WarnState)
      (imageRectLeft imageRectRight : ImageMsg)
      (cameraInfoLeft cameraInfoRight : CameraInfoMsg)
      (stamp : Nat) (q : List (String × String × Nat))
      (localTransform : Transform) (stereoTransform : Option Transform) :
      CallbackOutput :=
    let stereoModel :=
      stereoCameraModelFromROS cameraInfoLeft cameraInfoRight localTransform
        stereoTransform
    let fb := recoverBaseline env st cameraInfoLeft cameraInfoRight stereoModel
    let q2 := q ++ fb.queries
    if env.alreadyRectified ∧ fb.model.baseline ≤ 0 then
      { state := fb.state, diags := fb.diags ++ [Diag.invalidBaseline]
        tfQueries := q2, usedFallback := fb.used
        result := CallbackResult.droppedInvalidBaseline }
    else
      let lb := largeBaselineCheck fb.state fb.model
      let ptrImageLeft := toCvCopy env.conv imageRectLeft
        (leftTarget env.keepColor imageRectLeft.encoding)
      let ptrImageRight := toCvCopy env.conv imageRectRight
        (rightTarget imageRectRight.encoding)
      { state := lb.1, diags := fb.diags ++ lb.2, tfQueries := q2
        usedFallback := fb.used
        result := CallbackResult.dispatched
          { left := ptrImageLeft, right := ptrImageRight
            model := fb.model, stamp := stamp }
          { stamp := stamp, frame_id := imageRectLeft.frame_id } }

/-- An rtabmap_ros RGBDImage message as `callbackRGBD` reads it: the
message header frame id, the two camera infos, and the two images that
`rtabmap_ros::toCvShare` (MsgConversion.cpp, not under src/) decodes
from it, modelled as carried directly. -/
structure RGBDImageMsg where
  frame_id : String
  rgb_camera_info : CameraInfoMsg
  depth_camera_info : CameraInfoMsg
  left : ImageMsg
  right : ImageMsg
deriving DecidableEq, Repr

/-- Lines 312-462: the composite (RGBD) callback. Mirrors `callback`
with these source-visible differences: the calibration-transform check
has no identity test (lines 357-368); the model is derived without the
stereo transform argument (line 370); both image conversions are gated
on the LEFT image's encoding (lines 422-440); the dispatched header
carries the composite message's own frame id (line 454). -/
def callbackRGBD (env : Env) (st : WarnState) (image : RGBDImageMsg) :
    CallbackOutput :=
  if env.isPaused then
    { state := st, diags := [], tfQueries := [], usedFallback := false
      result := CallbackResult.paused }
  else
    callbackRGBDBody env st image image.left image.right
where
  /-- Lines 318-461: the body after `toCvShare` decoded the two
  images. -/
  callbackRGBDBody (env : Env) (st : WarnState) (image : RGBDImageMsg)
      (imageRectLeft imageRectRight : ImageMsg) : CallbackOutput :=
    if !supportedEncoding imageRectLeft.encoding ||
       !supportedEncoding imageRectRight.encoding then
      { state := st, diags := [Diag.badEncoding], tfQueries := []
        usedFallback := false, result := CallbackResult.droppedBadEncoding }
    else
      match env.getTransform env.frameId imageRectLeft.frame_id
          (frameStamp imageRectLeft imageRectRight) with
      | none =>
        { state := st, diags := []
          tfQueries := [(env.frameId, imageRectLeft.frame_id,
            frameStamp imageRectLeft imageRectRight)]
          usedFallback := false
          result := CallbackResult.droppedNoBodyTransform }
      | some localTransform =>
        if imageRectLeft.data.length ≠ 0 ∧ imageRectRight.data.length ≠ 0 then
          if ¬ env.alreadyRectified then
            match env.getTransform image.depth_camera_info.frame_id
                image.rgb_camera_info.frame_id image.rgb_camera_info.stamp with
            | none =>
              { state := st, diags := [Diag.missingCalibration]
                tfQueries := [(env.frameId, imageRectLeft.frame_id,
                    frameStamp imageRectLeft imageRectRight),
                  (image.depth_camera_info.frame_id, image.rgb_camera_info.frame_id,
                    image.rgb_camera_info.stamp)]
                usedFallback := false
                result := CallbackResult.droppedMissingCalibration }
            | some _stereoTransform =>
              callbackRGBDRest env st image imageRectLeft imageRectRight
                (frameStamp imageRectLeft imageRectRight)
                [(env.frameId, imageRectLeft.frame_id,
                    frameStamp imageRectLeft imageRectRight),
                  (image.depth_camera_info.frame_id, image.rgb_camera_info.frame_id,
                    image.rgb_camera_info.stamp)]
                localTransform
          else
            callbackRGBDRest env st image imageRectLeft imageRectRight
              (frameStamp imageRectLeft imageRectRight)
              [(env.frameId, imageRectLeft.frame_id,
                frameStamp imageRectLeft imageRectRight)]
              localTransform
        else
          { state := st, diags := [Diag.emptyImages]
            tfQueries := [(env.frameId, imageRectLeft.frame_id,
              frameStamp imageRectLeft imageRectRight)]
            usedFallback := false, result := CallbackResult.droppedEmptyImages }
  /-- Lines 370-455: model derivation, fallback, validation, one-shot
  large-baseline warning, conversions (both gated on the left image's
  encoding, as in the source), dispatch. -/
  callbackRGBDRest (env : Env) (st : WarnState) (image : RGBDImageMsg)
      (imageRectLeft imageRectRight : ImageMsg) (stamp : Nat)
      (q : List (String × String × Nat)) (localTransform : Transform) :
      CallbackOutput :=
    let stereoModel :=
      stereoCameraModelFromROS image.rgb_camera_info image.depth_camera_info
        localTransform none
    let fb := recoverBaseline env st image.rgb_camera_info
      image.depth_camera_info stereoModel
    let q2 := q ++ fb.queries
    if env.alreadyRectified ∧ fb.model.baseline ≤ 0 then
      { state := fb.state, diags := fb.diags ++ [Diag.invalidBaseline]
        tfQueries := q2, usedFallback := fb.used
        result := CallbackResult.droppedInvalidBaseline }
    else
      let lb := largeBaselineCheck fb.state fb.model
      let ptrImageLeft : CvImage :=
        normalizeLeftRGBD env.conv env.keepColor imageRectLeft
      let ptrImageRight : CvImage :=
        normalizeRightRGBD env.conv imageRectLeft.encoding imageRectRight
      { state := lb.1, diags := fb.diags ++ lb.2, tfQueries := q2
        usedFallback := fb.used
        result := CallbackResult.dispatched
          { left := ptrImageLeft, right := ptrImageRight
            model := fb.model, stamp := stamp }
          { stamp := stamp, frame_id := image.frame_id } }

/-- A whole process lifetime of the four-stream callback: the calls it
receives in order, threading the static one-shot flags, collecting all
diagnostics logged and whether any call used the fallback branch. -/
def runCallback (env : Env) (st : WarnState) :
    List (ImageMsg × ImageMsg × CameraInfoMsg × CameraInfoMsg) →
    WarnState × List Diag × Bool
  | [] => (st, [], false)
  | (l, r, cl, cr) :: ts =>
    let o := callback env st l r cl cr
    let rest := runCallback env o.state ts
    (rest.1, o.diags ++ rest.2.1, o.usedFallback || rest.2.2)

/-- A whole process lifetime of the composite (RGBD) callback. -/
def runCallbackRGBD (env : Env) (st : WarnState) :
    List RGBDImageMsg → WarnState × List Diag × Bool
  | [] => (st, [], false)
  | img :: ts =>
    let o := callbackRGBD env st img
    let rest := runCallbackRGBD env o.state ts
    (rest.1, o.diags ++ rest.2.1, o.usedFallback || rest.2.2)

/-- Number of occurrences of one diagnostic in a log. -/
def countDiag (d : Diag) : List Diag → Nat
  | [] => 0
  | e :: es => (if e = d then 1 else 0) + countDiag d es

/-!
Synchronizer model. The `message_filters` Synchronizer itself is
external library code; its pending state and exact-time correlation are
modelled from the spec's contract (one bounded pending queue per
stream; on arrival, correlate across all streams, emit the tuple once
and drain the matched entries). `flushCallbacks` is translated from
lines 465-480 of the source: delete the old synchronizer and construct
a fresh one with the configured queue size.
-/

/-- One message of one input stream: its stamp and an identity tag
distinguishing individual messages. -/
structure StreamMsg where
  stamp : Nat
  uid : Nat
deriving DecidableEq, Repr

/-- A correlated tuple of the four streams. -/
def SyncTuple := StreamMsg × StreamMsg × StreamMsg × StreamMsg
deriving instance DecidableEq, Repr for SyncTuple

/-- Modelled from the spec: the pending state of the four-stream
synchronizer — the configured queue size and one pending queue per
stream (left image, right image, left camera info, right camera
info). -/
structure SyncState where
  queueSize : Nat
  q1 : List StreamMsg
  q2 : List StreamMsg
  q3 : List StreamMsg
  q4 : List StreamMsg
deriving DecidableEq, Repr

/-- Modelled from the spec: a freshly constructed synchronizer starts
with empty pending buffers and the given queue size. -/
def mkSynchronizer (queueSize : Nat) : SyncState :=
  { queueSize := queueSize, q1 := [], q2 := [], q3 := [], q4 := [] }

/-- Lines 465-480: flushCallbacks deletes the old synchronizer and
constructs a fresh one with the configured queue size (rebuild, not
mutate); the old state is discarded entirely, so it is not read. -/
def flushCallbacks (queueSize : Nat) (_old : SyncState) : SyncState :=
  mkSynchronizer queueSize

/-- Modelled from the spec: the reconfiguration path (OdometryROS, a
file of this repository not under src/) flushes the synchronizer when
the queue-size configuration changes at runtime. -/
def reconfigure (queueSize : Nat) (s : SyncState) : SyncState :=
  if queueSize ≠ s.queueSize then flushCallbacks queueSize s else s

/-- Which of the four synchronized streams a message arrives on. -/
inductive StreamId where
  | one
  | two
  | three
  | four
deriving DecidableEq, Repr

/-- The pending queue of one stream. -/
def getQueue (s : SyncState) : StreamId → List StreamMsg
  | StreamId.one => s.q1
  | StreamId.two => s.q2
  | StreamId.three => s.q3
  | StreamId.four => s.q4

/-- Replace the pending queue of one stream. -/
def setQueue (s : SyncState) (i : StreamId) (q : List StreamMsg) : SyncState :=
  match i with
  | StreamId.one => { s with q1 := q }
  | StreamId.two => { s with q2 := q }
  | StreamId.three => { s with q3 := q }
  | StreamId.four => { s with q4 := q }

/-- Modelled from the spec: append an arrival to a pending queue,
dropping the oldest entries beyond the configured queue size. -/
def pushBounded (queueSize : Nat) (q : List StreamMsg) (m : StreamMsg) :
    List StreamMsg :=
  let q2 := q ++ [m]
  if queueSize < q2.length then q2.drop (q2.length - queueSize) else q2

/-- Whether a pending queue holds a message with the given stamp. -/
def hasStamp (q : List StreamMsg) (t : Nat) : Bool :=
  q.any fun m => m.stamp == t

/-- The first pending message with the given stamp, if any. -/
def takeStamp (q : List StreamMsg) (t : Nat) : Option StreamMsg :=
  q.find? fun m => m.stamp == t

/-- Remove the first pending message with the given stamp. -/
def eraseStamp (q : List StreamMsg) (t : Nat) : List StreamMsg :=
  q.eraseP fun m => m.stamp == t

/-- Modelled from the spec: exact-time correlation — if some stamp is
present in all four pending queues, emit that tuple once and drain the
four matched entries. -/
def tryCorrelate (s : SyncState) : SyncState × Option SyncTuple :=
  match s.q1.find? fun m =>
      hasStamp s.q2 m.stamp && hasStamp s.q3 m.stamp && hasStamp s.q4 m.stamp with
  | none => (s, none)
  | some m1 =>
    match takeStamp s.q2 m1.stamp, takeStamp s.q3 m1.stamp,
        takeStamp s.q4 m1.stamp with
    | some m2, some m3, some m4 =>
      ({ s with
          q1 := eraseStamp s.q1 m1.stamp
          q2 := eraseStamp s.q2 m1.stamp
          q3 := eraseStamp s.q3 m1.stamp
          q4 := eraseStamp s.q4 m1.stamp },
       some (m1, m2, m3, m4))
    | _, _, _ => (s, none)

/-- Modelled from the spec: one stream arrival — buffer the message
(bounded) and attempt correlation. -/
def deliver (s : SyncState) (i : StreamId) (m : StreamMsg) :
    SyncState × Option SyncTuple :=
  tryCorrelate (setQueue s i (pushBounded s.queueSize (getQueue s i) m))

/-- Process a sequence of stream arrivals, collecting every emitted
tuple in order. -/
def processAll (s : SyncState) :
    List (StreamId × StreamMsg) → SyncState × List SyncTuple
  | [] => (s, [])
  | (i, m) :: rest =>
    let d := deliver s i m
    let r := processAll d.1 rest
    (r.1, (match d.2 with | some t => [t] | none => []) ++ r.2)

/-- All messages pending in the synchronizer come from the given set. -/
def pendingIn (s : SyncState) (S : List StreamMsg) : Prop :=
  (∀ m ∈ s.q1, m ∈ S) ∧ (∀ m ∈ s.q2, m ∈ S) ∧
  (∀ m ∈ s.q3, m ∈ S) ∧ (∀ m ∈ s.q4, m ∈ S)

/-- All four components of a tuple come from the given set. -/
def tupleFrom (t : SyncTuple) (S : List StreamMsg) : Prop :=
  t.1 ∈ S ∧ t.2.1 ∈ S ∧ t.2.2.1 ∈ S ∧ t.2.2.2 ∈ S

/-! Helper lemmas about the diagnostic counters and the two one-shot
warning blocks. -/

theorem countDiag_append (d : Diag) (l1 l2 : List Diag) :
    countDiag d (l1 ++ l2) = countDiag d l1 + countDiag d l2 := by
  induction l1 with
  | nil => simp [countDiag]
  | cons e es ih => simp [countDiag, ih]; omega

theorem recoverBaseline_warned (env : Env) (st : WarnState)
    (li ri : CameraInfoMsg) (m : StereoCameraModel) :
    (recoverBaseline env st li ri m).state.warned =
      (st.warned || (recoverBaseline env st li ri m).used) := by
  unfold recoverBaseline
  repeat' split
  all_goals simp

theorem recoverBaseline_shown (env : Env) (st : WarnState)
    (li ri : CameraInfoMsg) (m : StereoCameraModel) :
    (recoverBaseline env st li ri m).state.shown = st.shown := by
  unfold recoverBaseline
  repeat' split
  all_goals simp

theorem recoverBaseline_count_fallback (env : Env) (st : WarnState)
    (li ri : CameraInfoMsg) (m : StereoCameraModel) :
    countDiag Diag.fallbackBaseline (recoverBaseline env st li ri m).diags =
      if (recoverBaseline env st li ri m).used && !st.warned then 1 else 0 := by
  unfold recoverBaseline
  repeat' split
  all_goals cases h : st.warned <;> simp_all [countDiag]

theorem recoverBaseline_count_large (env : Env) (st : WarnState)
    (li ri : CameraInfoMsg) (m : StereoCameraModel) :
    countDiag Diag.largeBaseline (recoverBaseline env st li ri m).diags = 0 := by
  unfold recoverBaseline
  repeat' split
  all_goals cases h : st.warned <;> simp_all [countDiag]

theorem recoverBaseline_diags_sub (env : Env) (st : WarnState)
    (li ri : CameraInfoMsg) (m : StereoCameraModel) :
    (recoverBaseline env st li ri m).diags = [] ∨
    (recoverBaseline env st li ri m).diags = [Diag.fallbackBaseline] := by
  unfold recoverBaseline
  repeat' split
  all_goals simp_all

theorem recoverBaseline_used_imp (env : Env) (st : WarnState)
    (li ri : CameraInfoMsg) (m : StereoCameraModel)
    (h : (recoverBaseline env st li ri m).used = true) :
    m.baseline = 0 ∧ env.alreadyRectified = true := by
  unfold recoverBaseline at h
  repeat' split at h
  all_goals simp_all

theorem recoverBaseline_not_used (env : Env) (st : WarnState)
    (li ri : CameraInfoMsg) (m : StereoCameraModel)
    (h : (recoverBaseline env st li ri m).used = false) :
    recoverBaseline env st li ri m =
      { state := st, diags := [],
        queries := (recoverBaseline env st li ri m).queries,
        used := false, model := m } := by
  unfold recoverBaseline at h ⊢
  repeat' split
  all_goals simp_all

theorem largeBaselineCheck_warned (st : WarnState) (m : StereoCameraModel) :
    (largeBaselineCheck st m).1.warned = st.warned := by
  unfold largeBaselineCheck
  repeat' split
  all_goals simp

theorem largeBaselineCheck_shown_mono (st : WarnState) (m : StereoCameraModel)
    (h : st.shown = true) : (largeBaselineCheck st m).1.shown = true := by
  unfold largeBaselineCheck
  repeat' split
  all_goals simp_all

theorem largeBaselineCheck_count_large (st : WarnState) (m : StereoCameraModel) :
    countDiag Diag.largeBaseline (largeBaselineCheck st m).2 =
      if (largeBaselineCheck st m).1.shown && !st.shown then 1 else 0 := by
  unfold largeBaselineCheck
  repeat' split
  all_goals cases h : st.shown <;> simp_all [countDiag]

theorem largeBaselineCheck_count_fallback (st : WarnState) (m : StereoCameraModel) :
    countDiag Diag.fallbackBaseline (largeBaselineCheck st m).2 = 0 := by
  unfold largeBaselineCheck
  repeat' split
  all_goals simp [countDiag]

theorem callbackRest_warned (env : Env) (st : WarnState)
    (l r : ImageMsg) (cl cr : CameraInfoMsg) (stamp : Nat)
    (q : List (String × String × Nat)) (lt : Transform)
    (str : Option Transform) :
    (callback.callbackRest env st l r cl cr stamp q lt str).state.warned =
      (st.warned ||
        (callback.callbackRest env st l r cl cr stamp q lt str).usedFallback) := by
  unfold callback.callbackRest
  dsimp only
  split
  · simp [recoverBaseline_warned]
  · simp [largeBaselineCheck_warned, recoverBaseline_warned]

theorem callbackRest_count_fallback (env : Env) (st : WarnState)
    (l r : ImageMsg) (cl cr : CameraInfoMsg) (stamp : Nat)
    (q : List (String × String × Nat)) (lt : Transform)
    (str : Option Transform) :
    countDiag Diag.fallbackBaseline
        (callback.callbackRest env st l r cl cr stamp q lt str).diags =
      if (callback.callbackRest env st l r cl cr stamp q lt str).usedFallback
          && !st.warned then 1 else 0 := by
  unfold callback.callbackRest
  dsimp only
  split
  · simp [countDiag_append, countDiag, recoverBaseline_count_fallback]
  · simp [countDiag_append, largeBaselineCheck_count_fallback,
      recoverBaseline_count_fallback]

theorem callbackRest_count_large (env : Env) (st : WarnState)
    (l r : ImageMsg) (cl cr : CameraInfoMsg) (stamp : Nat)
    (q : List (String × String × Nat)) (lt : Transform)
    (str : Option Transform) :
    countDiag Diag.largeBaseline
        (callback.callbackRest env st l r cl cr stamp q lt str).diags =
      if (callback.callbackRest env st l r cl cr stamp q lt str).state.shown
          && !st.shown then 1 else 0 := by
  unfold callback.callbackRest
  dsimp only
  split
  · simp [countDiag_append, countDiag, recoverBaseline_count_large,
      recoverBaseline_shown]
  · simp [countDiag_append, recoverBaseline_count_large,
      largeBaselineCheck_count_large, recoverBaseline_shown]

theorem callbackRest_shown_mono (env : Env) (st : WarnState)
    (l r : ImageMsg) (cl cr : CameraInfoMsg) (stamp : Nat)
    (q : List (String × String × Nat)) (lt : Transform)
    (str : Option Transform) (h : st.shown = true) :
    (callback.callbackRest env st l r cl cr stamp q lt str).state.shown = true := by
  unfold callback.callbackRest
  dsimp only
  split
  · simp [recoverBaseline_shown, h]
  · exact largeBaselineCheck_shown_mono _ _ ((recoverBaseline_shown _ _ _ _ _).trans h)

theorem callback_warned (env : Env) (st : WarnState)
    (l r : ImageMsg) (cl cr : CameraInfoMsg) :
    (callback env st l r cl cr).state.warned =
      (st.warned || (callback env st l r cl cr).usedFallback) := by
  unfold callback
  repeat' split
  all_goals first
    | apply callbackRest_warned
    | ((repeat' split) <;> simp_all [callbackRest_warned])

theorem callback_count_fallback (env : Env) (st : WarnState)
    (l r : ImageMsg) (cl cr : CameraInfoMsg) :
    countDiag Diag.fallbackBaseline (callback env st l r cl cr).diags =
      if (callback env st l r cl cr).usedFallback && !st.warned then 1 else 0 := by
  unfold callback
  repeat' split
  all_goals first
    | apply callbackRest_count_fallback
    | ((repeat' split) <;> simp_all [callbackRest_count_fallback, countDiag])

theorem callback_count_large (env : Env) (st : WarnState)
    (l r : ImageMsg) (cl cr : CameraInfoMsg) :
    countDiag Diag.largeBaseline (callback env st l r cl cr).diags =
      if (callback env st l r cl cr).state.shown && !st.shown then 1 else 0 := by
  unfold callback
  repeat' split
  all_goals first
    | apply callbackRest_count_large
    | ((repeat' split) <;> simp_all [callbackRest_count_large, countDiag])

theorem callback_shown_mono (env : Env) (st : WarnState)
    (l r : ImageMsg) (cl cr : CameraInfoMsg) (h : st.shown = true) :
    (callback env st l r cl cr).state.shown = true := by
  unfold callback
  repeat' split
  all_goals first
    | apply callbackRest_shown_mono _ _ _ _ _ _ _ _ _ _ h
    | ((repeat' split) <;> simp_all [callbackRest_shown_mono, h])

theorem callbackRGBDRest_warned (env : Env) (st : WarnState)
    (image : RGBDImageMsg) (l r : ImageMsg) (stamp : Nat)
    (q : List (String × String × Nat)) (lt : Transform) :
    (callbackRGBD.callbackRGBDRest env st image l r stamp q lt).state.warned =
      (st.warned ||
        (callbackRGBD.callbackRGBDRest env st image l r stamp q lt).usedFallback) := by
  unfold callbackRGBD.callbackRGBDRest
  dsimp only
  split
  · simp [recoverBaseline_warned]
  · simp [largeBaselineCheck_warned, recoverBaseline_warned]

theorem callbackRGBDRest_count_fallback (env : Env) (st : WarnState)
    (image : RGBDImageMsg) (l r : ImageMsg) (stamp : Nat)
    (q : List (String × String × Nat)) (lt : Transform) :
    countDiag Diag.fallbackBaseline
        (callbackRGBD.callbackRGBDRest env st image l r stamp q lt).diags =
      if (callbackRGBD.callbackRGBDRest env st image l r stamp q lt).usedFallback
          && !st.warned then 1 else 0 := by
  unfold callbackRGBD.callbackRGBDRest
  dsimp only
  split
  · simp [countDiag_append, countDiag, recoverBaseline_count_fallback]
  · simp [countDiag_append, largeBaselineCheck_count_fallback,
      recoverBaseline_count_fallback]

theorem callbackRGBDRest_count_large (env : Env) (st : WarnState)
    (image : RGBDImageMsg) (l r : ImageMsg) (stamp : Nat)
    (q : List (String × String × Nat)) (lt : Transform) :
    countDiag Diag.largeBaseline
        (callbackRGBD.callbackRGBDRest env st image l r stamp q lt).diags =
      if (callbackRGBD.callbackRGBDRest env st image l r stamp q lt).state.shown
          && !st.shown then 1 else 0 := by
  unfold callbackRGBD.callbackRGBDRest
  dsimp only
  split
  · simp [countDiag_append, countDiag, recoverBaseline_count_large,
      recoverBaseline_shown]
  · simp [countDiag_append, recoverBaseline_count_large,
      largeBaselineCheck_count_large, recoverBaseline_shown]

theorem callbackRGBDRest_shown_mono (env : Env) (st : WarnState)
    (image : RGBDImageMsg) (l r : ImageMsg) (stamp : Nat)
    (q : List (String × String × Nat)) (lt : Transform) (h : st.shown = true) :
    (callbackRGBD.callbackRGBDRest env st image l r stamp q lt).state.shown = true := by
  unfold callbackRGBD.callbackRGBDRest
  dsimp only
  split
  · simp [recoverBaseline_shown, h]
  · exact largeBaselineCheck_shown_mono _ _ ((recoverBaseline_shown _ _ _ _ _).trans h)

theorem callbackRGBD_warned (env : Env) (st : WarnState) (image : RGBDImageMsg) :
    (callbackRGBD env st image).state.warned =
      (st.warned || (callbackRGBD env st image).usedFallback) := by
  unfold callbackRGBD callbackRGBD.callbackRGBDBody
  repeat' split
  all_goals first
    | apply callbackRGBDRest_warned
    | ((repeat' split) <;> simp_all [callbackRGBDRest_warned])

theorem callbackRGBD_count_fallback (env : Env) (st : WarnState)
    (image : RGBDImageMsg) :
    countDiag Diag.fallbackBaseline (callbackRGBD env st image).diags =
      if (callbackRGBD env st image).usedFallback && !st.warned then 1 else 0 := by
  unfold callbackRGBD callbackRGBD.callbackRGBDBody
  repeat' split
  all_goals first
    | apply callbackRGBDRest_count_fallback
    | ((repeat' split) <;> simp_all [callbackRGBDRest_count_fallback, countDiag])

theorem callbackRGBD_count_large (env : Env) (st : WarnState)
    (image : RGBDImageMsg) :
    countDiag Diag.largeBaseline (callbackRGBD env st image).diags =
      if (callbackRGBD env st image).state.shown && !st.shown then 1 else 0 := by
  unfold callbackRGBD callbackRGBD.callbackRGBDBody
  repeat' split
  all_goals first
    | apply callbackRGBDRest_count_large
    | ((repeat' split) <;> simp_all [callbackRGBDRest_count_large, countDiag])

theorem callbackRGBD_shown_mono (env : Env) (st : WarnState)
    (image : RGBDImageMsg) (h : st.shown = true) :
    (callbackRGBD env st image).state.shown = true := by
  unfold callbackRGBD callbackRGBD.callbackRGBDBody
  repeat' split
  all_goals first
    | apply callbackRGBDRest_shown_mono _ _ _ _ _ _ _ _ h
    | ((repeat' split) <;> simp_all [callbackRGBDRest_shown_mono, h])

theorem runCallback_warned (env : Env) :
    ∀ (ts : List (ImageMsg × ImageMsg × CameraInfoMsg × CameraInfoMsg))
      (st : WarnState),
    (runCallback env st ts).1.warned =
      (st.warned || (runCallback env st ts).2.2) := by
  intro ts
  induction ts with
  | nil => intro st; simp [runCallback]
  | cons t ts ih =>
    intro st
    obtain ⟨l, r, cl, cr⟩ := t
    simp only [runCallback, ih, callback_warned, Bool.or_assoc]

theorem runCallback_shown_mono (env : Env) :
    ∀ (ts : List (ImageMsg × ImageMsg × CameraInfoMsg × CameraInfoMsg))
      (st : WarnState), st.shown = true →
    (runCallback env st ts).1.shown = true := by
  intro ts
  induction ts with
  | nil => intro st h; simpa [runCallback] using h
  | cons t ts ih =>
    intro st h
    obtain ⟨l, r, cl, cr⟩ := t
    simp only [runCallback]
    exact ih _ (callback_shown_mono env st l r cl cr h)

theorem runCallback_count_fallback (env : Env) :
    ∀ (ts : List (ImageMsg × ImageMsg × CameraInfoMsg × CameraInfoMsg))
      (st : WarnState),
    countDiag Diag.fallbackBaseline (runCallback env st ts).2.1 =
      if (runCallback env st ts).2.2 && !st.warned then 1 else 0 := by
  intro ts
  induction ts with
  | nil => intro st; simp [runCallback, countDiag]
  | cons t ts ih =>
    intro st
    obtain ⟨l, r, cl, cr⟩ := t
    simp only [runCallback, countDiag_append, callback_count_fallback, ih,
      callback_warned]
    cases hw : st.warned <;>
      by_cases hu : (callback env st l r cl cr).usedFallback = true <;>
        by_cases hr :
            (runCallback env (callback env st l r cl cr).state ts).2.2 = true <;>
          simp [hw, hu, hr]

theorem runCallback_count_large (env : Env) :
    ∀ (ts : List (ImageMsg × ImageMsg × CameraInfoMsg × CameraInfoMsg))
      (st : WarnState),
    countDiag Diag.largeBaseline (runCallback env st ts).2.1 =
      if (runCallback env st ts).1.shown && !st.shown then 1 else 0 := by
  intro ts
  induction ts with
  | nil => intro st; simp [runCallback, countDiag]
  | cons t ts ih =>
    intro st
    obtain ⟨l, r, cl, cr⟩ := t
    simp only [runCallback, countDiag_append, callback_count_large, ih]
    cases hs : st.shown with
    | true =>
      have ho := callback_shown_mono env st l r cl cr hs
      have hf := runCallback_shown_mono env ts _ ho
      simp [hs, ho, hf]
    | false =>
      by_cases ho : (callback env st l r cl cr).state.shown = true
      · have hf := runCallback_shown_mono env ts _ ho
        simp [hs, ho, hf]
      · by_cases hf :
            (runCallback env (callback env st l r cl cr).state ts).1.shown = true <;>
          simp [hs, ho, hf]

theorem runCallbackRGBD_warned (env : Env) :
    ∀ (ts : List RGBDImageMsg) (st : WarnState),
    (runCallbackRGBD env st ts).1.warned =
      (st.warned || (runCallbackRGBD env st ts).2.2) := by
  intro ts
  induction ts with
  | nil => intro st; simp [runCallbackRGBD]
  | cons t ts ih =>
    intro st
    simp only [runCallbackRGBD, ih, callbackRGBD_warned, Bool.or_assoc]

theorem runCallbackRGBD_shown_mono (env : Env) :
    ∀ (ts : List RGBDImageMsg) (st : WarnState), st.shown = true →
    (runCallbackRGBD env st ts).1.shown = true := by
  intro ts
  induction ts with
  | nil => intro st h; simpa [runCallbackRGBD] using h
  | cons t ts ih =>
    intro st h
    simp only [runCallbackRGBD]
    exact ih _ (callbackRGBD_shown_mono env st t h)

theorem runCallbackRGBD_count_fallback (env : Env) :
    ∀ (ts : List RGBDImageMsg) (st : WarnState),
    countDiag Diag.fallbackBaseline (runCallbackRGBD env st ts).2.1 =
      if (runCallbackRGBD env st ts).2.2 && !st.warned then 1 else 0 := by
  intro ts
  induction ts with
  | nil => intro st; simp [runCallbackRGBD, countDiag]
  | cons t ts ih =>
    intro st
    simp only [runCallbackRGBD, countDiag_append, callbackRGBD_count_fallback, ih,
      callbackRGBD_warned]
    cases hw : st.warned <;>
      by_cases hu : (callbackRGBD env st t).usedFallback = true <;>
        by_cases hr :
            (runCallbackRGBD env (callbackRGBD env st t).state ts).2.2 = true <;>
          simp [hw, hu, hr]

theorem runCallbackRGBD_count_large (env : Env) :
    ∀ (ts : List RGBDImageMsg) (st : WarnState),
    countDiag Diag.largeBaseline (runCallbackRGBD env st ts).2.1 =
      if (runCallbackRGBD env st ts).1.shown && !st.shown then 1 else 0 := by
  intro ts
  induction ts with
  | nil => intro st; simp [runCallbackRGBD, countDiag]
  | cons t ts ih =>
    intro st
    simp only [runCallbackRGBD, countDiag_append, callbackRGBD_count_large, ih]
    cases hs : st.shown with
    | true =>
      have ho := callbackRGBD_shown_mono env st t hs
      have hf := runCallbackRGBD_shown_mono env ts _ ho
      simp [hs, ho, hf]
    | false =>
      by_cases ho : (callbackRGBD env st t).state.shown = true
      · have hf := runCallbackRGBD_shown_mono env ts _ ho
        simp [hs, ho, hf]
      · by_cases hf :
            (runCallbackRGBD env (callbackRGBD env st t).state ts).1.shown = true <;>
          simp [hs, ho, hf]

/-! Path-reduction lemmas: under explicit hypotheses selecting a branch,
each callback reduces to that branch. -/

theorem frameStamp_eq_max (l r : ImageMsg) :
    frameStamp l r = max l.stamp r.stamp := by
  unfold frameStamp
  split <;> omega

theorem callback_rect_eq (env : Env) (st : WarnState)
    (l r : ImageMsg) (cl cr : CameraInfoMsg) (lt : Transform)
    (hp : env.isPaused = false)
    (hsl : supportedEncoding l.encoding = true)
    (hsr : supportedEncoding r.encoding = true)
    (hlt : env.getTransform env.frameId l.frame_id (frameStamp l r) = some lt)
    (hld : l.data.length ≠ 0) (hrd : r.data.length ≠ 0)
    (hrect : env.alreadyRectified = true) :
    callback env st l r cl cr =
      callback.callbackRest env st l r cl cr (frameStamp l r)
        [(env.frameId, l.frame_id, frameStamp l r)] lt none := by
  unfold callback
  simp [hp, hsl, hsr, hlt, hld, hrd, hrect]

theorem callback_norect_eq (env : Env) (st : WarnState)
    (l r : ImageMsg) (cl cr : CameraInfoMsg) (lt tr : Transform)
    (hp : env.isPaused = false)
    (hsl : supportedEncoding l.encoding = true)
    (hsr : supportedEncoding r.encoding = true)
    (hlt : env.getTransform env.frameId l.frame_id (frameStamp l r) = some lt)
    (hld : l.data.length ≠ 0) (hrd : r.data.length ≠ 0)
    (hrect : env.alreadyRectified = false)
    (hst : env.getTransform cr.frame_id cl.frame_id cl.stamp = some tr)
    (hid : tr.isIdentity = false) :
    callback env st l r cl cr =
      callback.callbackRest env st l r cl cr (frameStamp l r)
        [(env.frameId, l.frame_id, frameStamp l r),
         (cr.frame_id, cl.frame_id, cl.stamp)] lt (some tr) := by
  unfold callback
  simp [hp, hsl, hsr, hlt, hld, hrd, hrect, hst, hid]

theorem callback_norect_missing (env : Env) (st : WarnState)
    (l r : ImageMsg) (cl cr : CameraInfoMsg) (lt : Transform)
    (hp : env.isPaused = false)
    (hsl : supportedEncoding l.encoding = true)
    (hsr : supportedEncoding r.encoding = true)
    (hlt : env.getTransform env.frameId l.frame_id (frameStamp l r) = some lt)
    (hld : l.data.length ≠ 0) (hrd : r.data.length ≠ 0)
    (hrect : env.alreadyRectified = false)
    (hst : env.getTransform cr.frame_id cl.frame_id cl.stamp = none) :
    callback env st l r cl cr =
      { state := st, diags := [Diag.missingCalibration]
        tfQueries := [(env.frameId, l.frame_id, frameStamp l r),
          (cr.frame_id, cl.frame_id, cl.stamp)]
        usedFallback := false
        result := CallbackResult.droppedMissingCalibration } := by
  unfold callback
  simp [hp, hsl, hsr, hlt, hld, hrd, hrect, hst]

theorem callback_norect_degenerate (env : Env) (st : WarnState)
    (l r : ImageMsg) (cl cr : CameraInfoMsg) (lt tr : Transform)
    (hp : env.isPaused = false)
    (hsl : supportedEncoding l.encoding = true)
    (hsr : supportedEncoding r.encoding = true)
    (hlt : env.getTransform env.frameId l.frame_id (frameStamp l r) = some lt)
    (hld : l.data.length ≠ 0) (hrd : r.data.length ≠ 0)
    (hrect : env.alreadyRectified = false)
    (hst : env.getTransform cr.frame_id cl.frame_id cl.stamp = some tr)
    (hid : tr.isIdentity = true) :
    callback env st l r cl cr =
      { state := st, diags := [Diag.degenerateCalibration]
        tfQueries := [(env.frameId, l.frame_id, frameStamp l r),
          (cr.frame_id, cl.frame_id, cl.stamp)]
        usedFallback := false
        result := CallbackResult.droppedDegenerateCalibration } := by
  unfold callback
  simp [hp, hsl, hsr, hlt, hld, hrd, hrect, hst, hid]

theorem callbackRGBD_rect_eq (env : Env) (st : WarnState)
    (image : RGBDImageMsg) (lt : Transform)
    (hp : env.isPaused = false)
    (hsl : supportedEncoding image.left.encoding = true)
    (hsr : supportedEncoding image.right.encoding = true)
    (hlt : env.getTransform env.frameId image.left.frame_id
      (frameStamp image.left image.right) = some lt)
    (hld : image.left.data.length ≠ 0) (hrd : image.right.data.length ≠ 0)
    (hrect : env.alreadyRectified = true) :
    callbackRGBD env st image =
      callbackRGBD.callbackRGBDRest env st image image.left image.right
        (frameStamp image.left image.right)
        [(env.frameId, image.left.frame_id, frameStamp image.left image.right)]
        lt := by
  unfold callbackRGBD callbackRGBD.callbackRGBDBody
  simp [hp, hsl, hsr, hlt, hld, hrd, hrect]

theorem callbackRGBD_norect_eq (env : Env) (st : WarnState)
    (image : RGBDImageMsg) (lt tr : Transform)
    (hp : env.isPaused = false)
    (hsl : supportedEncoding image.left.encoding = true)
    (hsr : supportedEncoding image.right.encoding = true)
    (hlt : env.getTransform env.frameId image.left.frame_id
      (frameStamp image.left image.right) = some lt)
    (hld : image.left.data.length ≠ 0) (hrd : image.right.data.length ≠ 0)
    (hrect : env.alreadyRectified = false)
    (hst : env.getTransform image.depth_camera_info.frame_id
      image.rgb_camera_info.frame_id image.rgb_camera_info.stamp = some tr) :
    callbackRGBD env st image =
      callbackRGBD.callbackRGBDRest env st image image.left image.right
        (frameStamp image.left image.right)
        [(env.frameId, image.left.frame_id, frameStamp image.left image.right),
         (image.depth_camera_info.frame_id, image.rgb_camera_info.frame_id,
          image.rgb_camera_info.stamp)]
        lt := by
  unfold callbackRGBD callbackRGBD.callbackRGBDBody
  simp [hp, hsl, hsr, hlt, hld, hrd, hrect, hst]

theorem callbackRGBD_norect_missing (env : Env) (st : WarnState)
    (image : RGBDImageMsg) (lt : Transform)
    (hp : env.isPaused = false)
    (hsl : supportedEncoding image.left.encoding = true)
    (hsr : supportedEncoding image.right.encoding = true)
    (hlt : env.getTransform env.frameId image.left.frame_id
      (frameStamp image.left image.right) = some lt)
    (hld : image.left.data.length ≠ 0) (hrd : image.right.data.length ≠ 0)
    (hrect : env.alreadyRectified = false)
    (hst : env.getTransform image.depth_camera_info.frame_id
      image.rgb_camera_info.frame_id image.rgb_camera_info.stamp = none) :
    callbackRGBD env st image =
      { state := st, diags := [Diag.missingCalibration]
        tfQueries := [(env.frameId, image.left.frame_id,
            frameStamp image.left image.right),
          (image.depth_camera_info.frame_id, image.rgb_camera_info.frame_id,
            image.rgb_camera_info.stamp)]
        usedFallback := false
        result := CallbackResult.droppedMissingCalibration } := by
  unfold callbackRGBD callbackRGBD.callbackRGBDBody
  simp [hp, hsl, hsr, hlt, hld, hrd, hrect, hst]

theorem recoverBaseline_zero_pos (env : Env) (st : WarnState)
    (li ri : CameraInfoMsg) (m : StereoCameraModel) (tr : Transform)
    (hb : m.baseline = 0) (hrect : env.alreadyRectified = true)
    (hlt : env.getTransform li.frame_id ri.frame_id li.stamp = some tr)
    (hx : tr.x > 0) :
    recoverBaseline env st li ri m =
      { state := { st with warned := true }
        diags := if st.warned then [] else [Diag.fallbackBaseline]
        queries := [(li.frame_id, ri.frame_id, li.stamp)]
        used := true
        model :=
          { fx := m.fx, fy := m.fy, cx := m.cx, cy := m.cy
            baseline := tr.x
            localTransform := m.localTransform
            width := m.width, height := m.height } } := by
  unfold recoverBaseline
  simp [hb, hrect, hlt, hx]

theorem callbackRest_dispatch (env : Env) (st : WarnState)
    (l r : ImageMsg) (cl cr : CameraInfoMsg) (stamp : Nat)
    (q : List (String × String × Nat)) (lt : Transform)
    (str : Option Transform)
    (h : ¬(env.alreadyRectified = true ∧
      (recoverBaseline env st cl cr
        (stereoCameraModelFromROS cl cr lt str)).model.baseline ≤ 0)) :
    callback.callbackRest env st l r cl cr stamp q lt str =
      { state := (largeBaselineCheck
          (recoverBaseline env st cl cr
            (stereoCameraModelFromROS cl cr lt str)).state
          (recoverBaseline env st cl cr
            (stereoCameraModelFromROS cl cr lt str)).model).1
        diags := (recoverBaseline env st cl cr
            (stereoCameraModelFromROS cl cr lt str)).diags ++
          (largeBaselineCheck
            (recoverBaseline env st cl cr
              (stereoCameraModelFromROS cl cr lt str)).state
            (recoverBaseline env st cl cr
              (stereoCameraModelFromROS cl cr lt str)).model).2
        tfQueries := q ++ (recoverBaseline env st cl cr
          (stereoCameraModelFromROS cl cr lt str)).queries
        usedFallback := (recoverBaseline env st cl cr
          (stereoCameraModelFromROS cl cr lt str)).used
        result := CallbackResult.dispatched
          { left := toCvCopy env.conv l (leftTarget env.keepColor l.encoding)
            right := toCvCopy env.conv r (rightTarget r.encoding)
            model := (recoverBaseline env st cl cr
              (stereoCameraModelFromROS cl cr lt str)).model
            stamp := stamp }
          { stamp := stamp, frame_id := l.frame_id } } := by
  unfold callback.callbackRest
  simp only []
  rw [if_neg h]

theorem callbackRest_invalid (env : Env) (st : WarnState)
    (l r : ImageMsg) (cl cr : CameraInfoMsg) (stamp : Nat)
    (q : List (String × String × Nat)) (lt : Transform)
    (str : Option Transform)
    (h : env.alreadyRectified = true ∧
      (recoverBaseline env st cl cr
        (stereoCameraModelFromROS cl cr lt str)).model.baseline ≤ 0) :
    callback.callbackRest env st l r cl cr stamp q lt str =
      { state := (recoverBaseline env st cl cr
          (stereoCameraModelFromROS cl cr lt str)).state
        diags := (recoverBaseline env st cl cr
          (stereoCameraModelFromROS cl cr lt str)).diags ++
          [Diag.invalidBaseline]
        tfQueries := q ++ (recoverBaseline env st cl cr
          (stereoCameraModelFromROS cl cr lt str)).queries
        usedFallback := (recoverBaseline env st cl cr
          (stereoCameraModelFromROS cl cr lt str)).used
        result := CallbackResult.droppedInvalidBaseline } := by
  unfold callback.callbackRest
  simp only []
  rw [if_pos h]

theorem callbackRGBDRest_dispatch (env : Env) (st : WarnState)
    (image : RGBDImageMsg) (l r : ImageMsg) (stamp : Nat)
    (q : List (String × String × Nat)) (lt : Transform)
    (h : ¬(env.alreadyRectified = true ∧
      (recoverBaseline env st image.rgb_camera_info image.depth_camera_info
        (stereoCameraModelFromROS image.rgb_camera_info image.depth_camera_info
          lt none)).model.baseline ≤ 0)) :
    callbackRGBD.callbackRGBDRest env st image l r stamp q lt =
      { state := (largeBaselineCheck
          (recoverBaseline env st image.rgb_camera_info image.depth_camera_info
            (stereoCameraModelFromROS image.rgb_camera_info
              image.depth_camera_info lt none)).state
          (recoverBaseline env st image.rgb_camera_info image.depth_camera_info
            (stereoCameraModelFromROS image.rgb_camera_info
              image.depth_camera_info lt none)).model).1
        diags := (recoverBaseline env st image.rgb_camera_info
            image.depth_camera_info
            (stereoCameraModelFromROS image.rgb_camera_info
              image.depth_camera_info lt none)).diags ++
          (largeBaselineCheck
            (recoverBaseline env st image.rgb_camera_info image.depth_camera_info
              (stereoCameraModelFromROS image.rgb_camera_info
                image.depth_camera_info lt none)).state
            (recoverBaseline env st image.rgb_camera_info image.depth_camera_info
              (stereoCameraModelFromROS image.rgb_camera_info
                image.depth_camera_info lt none)).model).2
        tfQueries := q ++ (recoverBaseline env st image.rgb_camera_info
          image.depth_camera_info
          (stereoCameraModelFromROS image.rgb_camera_info
            image.depth_camera_info lt none)).queries
        usedFallback := (recoverBaseline env st image.rgb_camera_info
          image.depth_camera_info
          (stereoCameraModelFromROS image.rgb_camera_info
            image.depth_camera_info lt none)).used
        result := CallbackResult.dispatched
          { left := normalizeLeftRGBD env.conv env.keepColor l
            right := normalizeRightRGBD env.conv l.encoding r
            model := (recoverBaseline env st image.rgb_camera_info
              image.depth_camera_info
              (stereoCameraModelFromROS image.rgb_camera_info
                image.depth_camera_info lt none)).model
            stamp := stamp }
          { stamp := stamp, frame_id := image.frame_id } } := by
  unfold callbackRGBD.callbackRGBDRest
  simp only []
  rw [if_neg h]

theorem callbackRGBDRest_invalid (env : Env) (st : WarnState)
    (image : RGBDImageMsg) (l r : ImageMsg) (stamp : Nat)
    (q : List (String × String × Nat)) (lt : Transform)
    (h : env.alreadyRectified = true ∧
      (recoverBaseline env st image.rgb_camera_info image.depth_camera_info
        (stereoCameraModelFromROS image.rgb_camera_info image.depth_camera_info
          lt none)).model.baseline ≤ 0) :
    callbackRGBD.callbackRGBDRest env st image l r stamp q lt =
      { state := (recoverBaseline env st image.rgb_camera_info
          image.depth_camera_info
          (stereoCameraModelFromROS image.rgb_camera_info
            image.depth_camera_info lt none)).state
        diags := (recoverBaseline env st image.rgb_camera_info
          image.depth_camera_info
          (stereoCameraModelFromROS image.rgb_camera_info
            image.depth_camera_info lt none)).diags ++ [Diag.invalidBaseline]
        tfQueries := q ++ (recoverBaseline env st image.rgb_camera_info
          image.depth_camera_info
          (stereoCameraModelFromROS image.rgb_camera_info
            image.depth_camera_info lt none)).queries
        usedFallback := (recoverBaseline env st image.rgb_camera_info
          image.depth_camera_info
          (stereoCameraModelFromROS image.rgb_camera_info
            image.depth_camera_info lt none)).used
        result := CallbackResult.droppedInvalidBaseline } := by
  unfold callbackRGBD.callbackRGBDRest
  simp only []
  rw [if_pos h]

/-! Claim theorems. -/

/-- C6: for every correlated tuple in which either image carries an
encoding tag outside the accepted set, both paths drop the frame with
the logged bad-encoding diagnostic, produce no buffer, issue no tf
query and never reach the estimator (the result is the bad-encoding
drop, not a dispatch). -/
theorem claim_C6 :
    (∀ (env : Env) (st : WarnState) (l r : ImageMsg) (cl cr : CameraInfoMsg),
      env.isPaused = false →
      (supportedEncoding l.encoding = false ∨
        supportedEncoding r.encoding = false) →
      callback env st l r cl cr =
        { state := st, diags := [Diag.badEncoding], tfQueries := []
          usedFallback := false
          result := CallbackResult.droppedBadEncoding }) ∧
    (∀ (env : Env) (st : WarnState) (image : RGBDImageMsg),
      env.isPaused = false →
      (supportedEncoding image.left.encoding = false ∨
        supportedEncoding image.right.encoding = false) →
      callbackRGBD env st image =
        { state := st, diags := [Diag.badEncoding], tfQueries := []
          usedFallback := false
          result := CallbackResult.droppedBadEncoding }) := by
  constructor
  · intro env st l r cl cr hp hbad
    unfold callback
    rcases hbad with hb | hb <;> simp [hp, hb]
  · intro env st image hp hbad
    unfold callbackRGBD callbackRGBD.callbackRGBDBody
    rcases hbad with hb | hb <;> simp [hp, hb]

/-- C10: in the four-stream path the body-frame transform lookup comes
before the empty-image validation — a tuple whose body transform is
unavailable is dropped silently (no diagnostic at all, the only query
is the failed one), with no condition on the image buffers; and the
empty-image diagnostic is only ever logged when the body-frame lookup
succeeded. -/
theorem claim_C10 :
    (∀ (env : Env) (st : WarnState) (l r : ImageMsg) (cl cr : CameraInfoMsg),
      env.isPaused = false →
      supportedEncoding l.encoding = true →
      supportedEncoding r.encoding = true →
      env.getTransform env.frameId l.frame_id (frameStamp l r) = none →
      callback env st l r cl cr =
        { state := st, diags := []
          tfQueries := [(env.frameId, l.frame_id, frameStamp l r)]
          usedFallback := false
          result := CallbackResult.droppedNoBodyTransform }) ∧
    (∀ (env : Env) (st : WarnState) (l r : ImageMsg) (cl cr : CameraInfoMsg),
      Diag.emptyImages ∈ (callback env st l r cl cr).diags →
      ∃ lt, env.getTransform env.frameId l.frame_id (frameStamp l r) = some lt) := by
  constructor
  · intro env st l r cl cr hp hsl hsr hnone
    unfold callback
    simp [hp, hsl, hsr, hnone]
  · intro env st l r cl cr
    unfold callback
    repeat' split
    all_goals first
      | exact fun a => ⟨_, by assumption⟩
      | simp

/-- C8: whenever a frame is dispatched (either path), its header stamp
is the max of the two image stamps, the SensorData carries the same
stamp, and the body-frame transform lookup was issued at that very
stamp. -/
theorem claim_C8 :
    (∀ (env : Env) (st : WarnState) (l r : ImageMsg) (cl cr : CameraInfoMsg)
      (d : SensorData) (h : Header),
      (callback env st l r cl cr).result = CallbackResult.dispatched d h →
      h.stamp = max l.stamp r.stamp ∧ d.stamp = h.stamp ∧
      (env.frameId, l.frame_id, h.stamp) ∈ (callback env st l r cl cr).tfQueries) ∧
    (∀ (env : Env) (st : WarnState) (image : RGBDImageMsg)
      (d : SensorData) (h : Header),
      (callbackRGBD env st image).result = CallbackResult.dispatched d h →
      h.stamp = max image.left.stamp image.right.stamp ∧ d.stamp = h.stamp ∧
      (env.frameId, image.left.frame_id, h.stamp) ∈
        (callbackRGBD env st image).tfQueries) := by
  constructor
  · intro env st l r cl cr d h
    unfold callback callback.callbackRest
    dsimp only
    repeat' split
    all_goals intro hres
    all_goals
      first
      | (simp_all; done)
      | (injection hres with hd hh
         subst hd
         subst hh
         simp [frameStamp_eq_max])
  · intro env st image d h
    unfold callbackRGBD callbackRGBD.callbackRGBDBody callbackRGBD.callbackRGBDRest
    dsimp only
    repeat' split
    all_goals intro hres
    all_goals
      first
      | (simp_all; done)
      | (injection hres with hd hh
         subst hd
         subst hh
         simp [frameStamp_eq_max])

/-- Inversion: a dispatched result of the four-stream callback
determines the frame completely (body transform found, images converted
with the left/right targets, model from the fallback block, max
stamp). -/
theorem callback_dispatch_inv (env : Env) (st : WarnState)
    (l r : ImageMsg) (cl cr : CameraInfoMsg) (d : SensorData) (h : Header)
    (hres : (callback env st l r cl cr).result = CallbackResult.dispatched d h) :
    ∃ lt str,
      env.getTransform env.frameId l.frame_id (frameStamp l r) = some lt ∧
      d = { left := toCvCopy env.conv l (leftTarget env.keepColor l.encoding)
            right := toCvCopy env.conv r (rightTarget r.encoding)
            model := (recoverBaseline env st cl cr
              (stereoCameraModelFromROS cl cr lt str)).model
            stamp := frameStamp l r } ∧
      h = { stamp := frameStamp l r, frame_id := l.frame_id } := by
  unfold callback callback.callbackRest at hres
  dsimp only at hres
  repeat' split at hres
  all_goals first
    | exact CallbackResult.noConfusion hres
    | (injection hres with hd hh
       subst hd
       subst hh
       exact ⟨_, _, (by assumption), rfl, rfl⟩)

/-- Inversion: a dispatched result of the RGBD callback determines the
frame completely; note the right image is normalized with the LEFT
image's encoding as the gate, as in the source. -/
theorem callbackRGBD_dispatch_inv (env : Env) (st : WarnState)
    (image : RGBDImageMsg) (d : SensorData) (h : Header)
    (hres : (callbackRGBD env st image).result = CallbackResult.dispatched d h) :
    ∃ lt,
      env.getTransform env.frameId image.left.frame_id
        (frameStamp image.left image.right) = some lt ∧
      d = { left := normalizeLeftRGBD env.conv env.keepColor image.left
            right := normalizeRightRGBD env.conv image.left.encoding image.right
            model := (recoverBaseline env st image.rgb_camera_info
              image.depth_camera_info
              (stereoCameraModelFromROS image.rgb_camera_info
                image.depth_camera_info lt none)).model
            stamp := frameStamp image.left image.right } ∧
      h = { stamp := frameStamp image.left image.right
            frame_id := image.frame_id } := by
  unfold callbackRGBD callbackRGBD.callbackRGBDBody
    callbackRGBD.callbackRGBDRest at hres
  dsimp only at hres
  repeat' split at hres
  all_goals first
    | exact CallbackResult.noConfusion hres
    | (injection hres with hd hh
       subst hd
       subst hh
       exact ⟨_, (by assumption), rfl, rfl⟩)

/-- C3: left-image normalization, both paths. An 8-bit single-channel
(8UC1/mono8) left input reaches the estimator unchanged (buffer and
encoding); a mono16 left input is converted to mono8 regardless of the
keep-color flag; any other accepted left encoding is converted to bgr8
when keep-color is set and to mono8 otherwise. -/
theorem claim_C3 :
    (∀ (env : Env) (st : WarnState) (l r : ImageMsg) (cl cr : CameraInfoMsg)
      (d : SensorData) (h : Header),
      (callback env st l r cl cr).result = CallbackResult.dispatched d h →
      ((l.encoding = TYPE_8UC1 ∨ l.encoding = MONO8 →
          d.left = { encoding := l.encoding, data := l.data }) ∧
       (l.encoding = MONO16 → d.left.encoding = MONO8) ∧
       (l.encoding ≠ TYPE_8UC1 → l.encoding ≠ MONO8 → l.encoding ≠ MONO16 →
          d.left.encoding = if env.keepColor then BGR8 else MONO8))) ∧
    (∀ (env : Env) (st : WarnState) (image : RGBDImageMsg)
      (d : SensorData) (h : Header),
      (callbackRGBD env st image).result = CallbackResult.dispatched d h →
      ((image.left.encoding = TYPE_8UC1 ∨ image.left.encoding = MONO8 →
          d.left = { encoding := image.left.encoding, data := image.left.data }) ∧
       (image.left.encoding = MONO16 → d.left.encoding = MONO8) ∧
       (image.left.encoding ≠ TYPE_8UC1 → image.left.encoding ≠ MONO8 →
          image.left.encoding ≠ MONO16 →
          d.left.encoding = if env.keepColor then BGR8 else MONO8))) := by
  constructor
  · intro env st l r cl cr d h hres
    obtain ⟨lt, str, hlt, hd, hh⟩ := callback_dispatch_inv env st l r cl cr d h hres
    subst hd
    refine ⟨?_, ?_, ?_⟩
    · rintro (hp | hp) <;>
        simp [toCvCopy, leftTarget, hp, TYPE_8UC1, MONO8]
    · intro hp
      simp [toCvCopy, leftTarget, hp, TYPE_8UC1, MONO8, MONO16]
    · intro h1 h2 h3
      simp only [TYPE_8UC1, MONO8, MONO16] at h1 h2 h3
      cases hk : env.keepColor <;>
        simp [toCvCopy, leftTarget, h1, h2, h3, hk, TYPE_8UC1, MONO8, MONO16, BGR8]
  · intro env st image d h hres
    obtain ⟨lt, hlt, hd, hh⟩ := callbackRGBD_dispatch_inv env st image d h hres
    subst hd
    refine ⟨?_, ?_, ?_⟩
    · rintro (hp | hp) <;>
        simp [normalizeLeftRGBD, cvtColor, hp, TYPE_8UC1, MONO8]
    · intro hp
      simp [normalizeLeftRGBD, cvtColor, hp, TYPE_8UC1, MONO8, MONO16]
    · intro h1 h2 h3
      simp only [TYPE_8UC1, MONO8, MONO16] at h1 h2 h3
      cases hk : env.keepColor <;>
        simp [normalizeLeftRGBD, cvtColor, h1, h2, h3, hk, TYPE_8UC1, MONO8,
          MONO16, BGR8]

/-- The fallback block leaves everything unchanged when the derived
baseline is nonzero. -/
theorem recoverBaseline_nonzero (env : Env) (st : WarnState)
    (li ri : CameraInfoMsg) (m : StereoCameraModel) (hb : m.baseline ≠ 0) :
    recoverBaseline env st li ri m =
      { state := st, diags := [], queries := [], used := false, model := m } := by
  unfold recoverBaseline
  rw [if_neg]
  rintro ⟨h0, -⟩
  exact hb h0

/-! Concrete fixtures for counterexamples and witnesses. -/

/-- Identity pixel conversion (the claims do not constrain pixel
values, only encodings and pass-through). -/
def convFix : String → String → List Nat → List Nat := fun _ _ d => d

/-- A left camera info with trivial extrinsic row (Tx = 0). -/
def infoFix : CameraInfoMsg :=
  { frame_id := "rgb", stamp := 1, fx := 1, fy := 1, cx := 0, cy := 0
    Tx := 0, width := 4, height := 3 }

/-- A right camera info with Tx = -5 (baseline 5 at fx = 1). -/
def depthInfoFix : CameraInfoMsg :=
  { infoFix with frame_id := "depth", Tx := -5 }

/-- A mono8 left image. -/
def leftMono8Fix : ImageMsg :=
  { encoding := MONO8, stamp := 1, frame_id := "rgb", data := [7] }

/-- A bgr8 right image. -/
def rightBgr8Fix : ImageMsg :=
  { encoding := BGR8, stamp := 1, frame_id := "depth", data := [8, 9, 10] }

/-- A mono8 right image with a later stamp. -/
def rightMono8Fix : ImageMsg :=
  { encoding := MONO8, stamp := 2, frame_id := "depth", data := [8] }

/-- A tf lookup that always answers with a plain non-identity
transform. -/
def tfPlainFix : String → String → Nat → Option Transform :=
  fun _ _ _ => some { x := 0, isIdentity := false }

/-- A tf lookup that always answers with the identity transform. -/
def tfIdentityFix : String → String → Nat → Option Transform :=
  fun _ _ _ => some { x := 0, isIdentity := true }

/-- Environment for the C4 failing input: running, already rectified,
keep-color off. -/
def envC4 : Env :=
  { isPaused := false, alreadyRectified := true, keepColor := false
    frameId := "base", getTransform := tfPlainFix, conv := convFix }

/-- The C4 failing input: an RGBD frame whose left image is mono8 and
whose right image is bgr8. -/
def imgC4 : RGBDImageMsg :=
  { frame_id := "cam", rgb_camera_info := infoFix
    depth_camera_info := depthInfoFix
    left := leftMono8Fix, right := rightBgr8Fix }

/-- C4 (code bug, failing input): in the RGBD path with left mono8 and
right bgr8, the frame is dispatched with the right image STILL bgr8 —
the source gates the right-image conversion on the LEFT image's
encoding (lines 436-437), so a color right image next to a grayscale
left image is never normalized to 8-bit grayscale, contradicting the
claim that the right image is always single-channel 8-bit regardless of
its own encoding. (The four-stream path gates on the right image's own
encoding, lines 286-288.) -/
theorem claim_C4 :
    ∃ d h,
      (callbackRGBD envC4 { warned := false, shown := false } imgC4).result =
        CallbackResult.dispatched d h ∧
      imgC4.left.encoding = MONO8 ∧ imgC4.right.encoding = BGR8 ∧
      d.right = { encoding := BGR8, data := [8, 9, 10] } := by
  have hM : stereoCameraModelFromROS imgC4.rgb_camera_info
      imgC4.depth_camera_info { x := 0, isIdentity := false } none =
      { fx := 1, fy := 1, cx := 0, cy := 0, baseline := 5
        localTransform := { x := 0, isIdentity := false }
        width := 4, height := 3 } := by
    simp [stereoCameraModelFromROS, imgC4, infoFix, depthInfoFix]
  rw [callbackRGBD_rect_eq envC4 { warned := false, shown := false } imgC4
      { x := 0, isIdentity := false } rfl (by decide) (by decide) rfl
      (by decide) (by decide) rfl,
    callbackRGBDRest_dispatch envC4 { warned := false, shown := false } imgC4
      imgC4.left imgC4.right (frameStamp imgC4.left imgC4.right)
      [(envC4.frameId, imgC4.left.frame_id, frameStamp imgC4.left imgC4.right)]
      { x := 0, isIdentity := false }
      (by rw [hM, recoverBaseline_nonzero _ _ _ _ _ (by norm_num)]
          rintro ⟨-, hle⟩
          norm_num at hle)]
  refine ⟨_, _, rfl, by decide, by decide, ?_⟩
  simp [normalizeRightRGBD, cvtColor, imgC4, leftMono8Fix, rightBgr8Fix,
    MONO8, TYPE_8UC1, BGR8]

/-- C5: with already-rectified = true and the baseline still ≤ 0 after
the fallback-recovery attempt, both paths drop the frame with the
invalid-baseline diagnostic and dispatch nothing. -/
theorem claim_C5 :
    (∀ (env : Env) (st : WarnState) (l r : ImageMsg) (cl cr : CameraInfoMsg)
      (lt : Transform),
      env.isPaused = false →
      supportedEncoding l.encoding = true →
      supportedEncoding r.encoding = true →
      env.getTransform env.frameId l.frame_id (frameStamp l r) = some lt →
      l.data.length ≠ 0 → r.data.length ≠ 0 →
      env.alreadyRectified = true →
      (recoverBaseline env st cl cr
        (stereoCameraModelFromROS cl cr lt none)).model.baseline ≤ 0 →
      (callback env st l r cl cr).result =
        CallbackResult.droppedInvalidBaseline ∧
      Diag.invalidBaseline ∈ (callback env st l r cl cr).diags) ∧
    (∀ (env : Env) (st : WarnState) (image : RGBDImageMsg) (lt : Transform),
      env.isPaused = false →
      supportedEncoding image.left.encoding = true →
      supportedEncoding image.right.encoding = true →
      env.getTransform env.frameId image.left.frame_id
        (frameStamp image.left image.right) = some lt →
      image.left.data.length ≠ 0 → image.right.data.length ≠ 0 →
      env.alreadyRectified = true →
      (recoverBaseline env st image.rgb_camera_info image.depth_camera_info
        (stereoCameraModelFromROS image.rgb_camera_info image.depth_camera_info
          lt none)).model.baseline ≤ 0 →
      (callbackRGBD env st image).result =
        CallbackResult.droppedInvalidBaseline ∧
      Diag.invalidBaseline ∈ (callbackRGBD env st image).diags) := by
  constructor
  · intro env st l r cl cr lt hp hsl hsr hlt hld hrd hrect hble
    rw [callback_rect_eq env st l r cl cr lt hp hsl hsr hlt hld hrd hrect,
      callbackRest_invalid env st l r cl cr (frameStamp l r)
        [(env.frameId, l.frame_id, frameStamp l r)] lt none ⟨hrect, hble⟩]
    simp
  · intro env st image lt hp hsl hsr hlt hld hrd hrect hble
    rw [callbackRGBD_rect_eq env st image lt hp hsl hsr hlt hld hrd hrect,
      callbackRGBDRest_invalid env st image image.left image.right
        (frameStamp image.left image.right)
        [(env.frameId, image.left.frame_id, frameStamp image.left image.right)]
        lt ⟨hrect, hble⟩]
    simp

/-- C7: a frame whose resolved baseline exceeds 10 meters is still
dispatched (warning, not failure) in every path variant, and over a
whole process lifetime (either path) the large-baseline diagnostic is
logged at most once. -/
theorem claim_C7 :
    (∀ (env : Env) (st : WarnState) (l r : ImageMsg) (cl cr : CameraInfoMsg)
      (lt : Transform),
      env.isPaused = false →
      supportedEncoding l.encoding = true →
      supportedEncoding r.encoding = true →
      env.getTransform env.frameId l.frame_id (frameStamp l r) = some lt →
      l.data.length ≠ 0 → r.data.length ≠ 0 →
      env.alreadyRectified = true →
      (recoverBaseline env st cl cr
        (stereoCameraModelFromROS cl cr lt none)).model.baseline > 10 →
      ∃ d h, (callback env st l r cl cr).result =
        CallbackResult.dispatched d h) ∧
    (∀ (env : Env) (st : WarnState) (l r : ImageMsg) (cl cr : CameraInfoMsg)
      (lt tr : Transform),
      env.isPaused = false →
      supportedEncoding l.encoding = true →
      supportedEncoding r.encoding = true →
      env.getTransform env.frameId l.frame_id (frameStamp l r) = some lt →
      l.data.length ≠ 0 → r.data.length ≠ 0 →
      env.alreadyRectified = false →
      env.getTransform cr.frame_id cl.frame_id cl.stamp = some tr →
      tr.isIdentity = false →
      (recoverBaseline env st cl cr
        (stereoCameraModelFromROS cl cr lt (some tr))).model.baseline > 10 →
      ∃ d h, (callback env st l r cl cr).result =
        CallbackResult.dispatched d h) ∧
    (∀ (env : Env) (st : WarnState) (image : RGBDImageMsg) (lt : Transform),
      env.isPaused = false →
      supportedEncoding image.left.encoding = true →
      supportedEncoding image.right.encoding = true →
      env.getTransform env.frameId image.left.frame_id
        (frameStamp image.left image.right) = some lt →
      image.left.data.length ≠ 0 → image.right.data.length ≠ 0 →
      (env.alreadyRectified = true ∨
        ∃ tr, env.getTransform image.depth_camera_info.frame_id
          image.rgb_camera_info.frame_id image.rgb_camera_info.stamp = some tr) →
      (recoverBaseline env st image.rgb_camera_info image.depth_camera_info
        (stereoCameraModelFromROS image.rgb_camera_info image.depth_camera_info
          lt none)).model.baseline > 10 →
      ∃ d h, (callbackRGBD env st image).result =
        CallbackResult.dispatched d h) ∧
    (∀ (env : Env) (st : WarnState)
      (ts : List (ImageMsg × ImageMsg × CameraInfoMsg × CameraInfoMsg)),
      st.shown = false →
      countDiag Diag.largeBaseline (runCallback env st ts).2.1 ≤ 1) ∧
    (∀ (env : Env) (st : WarnState) (ts : List RGBDImageMsg),
      st.shown = false →
      countDiag Diag.largeBaseline (runCallbackRGBD env st ts).2.1 ≤ 1) := by
  refine ⟨?_, ?_, ?_, ?_, ?_⟩
  · intro env st l r cl cr lt hp hsl hsr hlt hld hrd hrect hbg
    rw [callback_rect_eq env st l r cl cr lt hp hsl hsr hlt hld hrd hrect,
      callbackRest_dispatch env st l r cl cr (frameStamp l r)
        [(env.frameId, l.frame_id, frameStamp l r)] lt none
        (by rintro ⟨-, hle⟩; exact absurd hle (not_le.mpr (by linarith)))]
    exact ⟨_, _, rfl⟩
  · intro env st l r cl cr lt tr hp hsl hsr hlt hld hrd hrect hst hid hbg
    rw [callback_norect_eq env st l r cl cr lt tr hp hsl hsr hlt hld hrd hrect
        hst hid,
      callbackRest_dispatch env st l r cl cr (frameStamp l r)
        [(env.frameId, l.frame_id, frameStamp l r),
         (cr.frame_id, cl.frame_id, cl.stamp)] lt (some tr)
        (by rintro ⟨ha, -⟩; rw [hrect] at ha; exact Bool.false_ne_true ha)]
    exact ⟨_, _, rfl⟩
  · intro env st image lt hp hsl hsr hlt hld hrd hcal hbg
    have hpos : ¬(env.alreadyRectified = true ∧
        (recoverBaseline env st image.rgb_camera_info image.depth_camera_info
          (stereoCameraModelFromROS image.rgb_camera_info image.depth_camera_info
            lt none)).model.baseline ≤ 0) := by
      rintro ⟨-, hle⟩
      exact absurd hle (not_le.mpr (by linarith))
    rcases hcal with hrect | ⟨tr, hst⟩
    · rw [callbackRGBD_rect_eq env st image lt hp hsl hsr hlt hld hrd hrect,
        callbackRGBDRest_dispatch env st image image.left image.right
          (frameStamp image.left image.right)
          [(env.frameId, image.left.frame_id,
            frameStamp image.left image.right)] lt hpos]
      exact ⟨_, _, rfl⟩
    · by_cases hrect : env.alreadyRectified = true
      · rw [callbackRGBD_rect_eq env st image lt hp hsl hsr hlt hld hrd hrect,
          callbackRGBDRest_dispatch env st image image.left image.right
            (frameStamp image.left image.right)
            [(env.frameId, image.left.frame_id,
              frameStamp image.left image.right)] lt hpos]
        exact ⟨_, _, rfl⟩
      · rw [callbackRGBD_norect_eq env st image lt tr hp hsl hsr hlt hld hrd
            (by simpa using hrect) hst,
          callbackRGBDRest_dispatch env st image image.left image.right
            (frameStamp image.left image.right)
            [(env.frameId, image.left.frame_id,
              frameStamp image.left image.right),
             (image.depth_camera_info.frame_id, image.rgb_camera_info.frame_id,
              image.rgb_camera_info.stamp)] lt hpos]
        exact ⟨_, _, rfl⟩
  · intro env st ts hs
    rw [runCallback_count_large]
    split <;> omega
  · intro env st ts hs
    rw [runCallbackRGBD_count_large]
    split <;> omega

/-- C1: with already-rectified = true, a derived baseline of exactly
zero, and a non-null left-to-right transform with positive x at the
left camera info's stamp, the frame is dispatched — in the four-stream
path AND in the RGBD path — with a model whose baseline is that x and
whose intrinsics, local transform and image size come from the derived
model; the fallback branch runs only when the derived baseline is
exactly zero; and over a whole process lifetime (either path, one-shot
flag initially clear) the fallback diagnostic is logged exactly once
when any call used the fallback, and never otherwise. -/
theorem claim_C1 :
    (∀ (env : Env) (st : WarnState) (l r : ImageMsg) (cl cr : CameraInfoMsg)
      (lt tr : Transform),
      env.isPaused = false →
      supportedEncoding l.encoding = true →
      supportedEncoding r.encoding = true →
      env.getTransform env.frameId l.frame_id (frameStamp l r) = some lt →
      l.data.length ≠ 0 → r.data.length ≠ 0 →
      env.alreadyRectified = true →
      (stereoCameraModelFromROS cl cr lt none).baseline = 0 →
      env.getTransform cl.frame_id cr.frame_id cl.stamp = some tr →
      tr.x > 0 →
      ∃ d h, (callback env st l r cl cr).result =
          CallbackResult.dispatched d h ∧
        d.model =
          { fx := (stereoCameraModelFromROS cl cr lt none).fx
            fy := (stereoCameraModelFromROS cl cr lt none).fy
            cx := (stereoCameraModelFromROS cl cr lt none).cx
            cy := (stereoCameraModelFromROS cl cr lt none).cy
            baseline := tr.x
            localTransform :=
              (stereoCameraModelFromROS cl cr lt none).localTransform
            width := (stereoCameraModelFromROS cl cr lt none).width
            height := (stereoCameraModelFromROS cl cr lt none).height }) ∧
    (∀ (env : Env) (st : WarnState) (image : RGBDImageMsg) (lt tr : Transform),
      env.isPaused = false →
      supportedEncoding image.left.encoding = true →
      supportedEncoding image.right.encoding = true →
      env.getTransform env.frameId image.left.frame_id
        (frameStamp image.left image.right) = some lt →
      image.left.data.length ≠ 0 → image.right.data.length ≠ 0 →
      env.alreadyRectified = true →
      (stereoCameraModelFromROS image.rgb_camera_info image.depth_camera_info
        lt none).baseline = 0 →
      env.getTransform image.rgb_camera_info.frame_id
        image.depth_camera_info.frame_id image.rgb_camera_info.stamp =
        some tr →
      tr.x > 0 →
      ∃ d h, (callbackRGBD env st image).result =
          CallbackResult.dispatched d h ∧
        d.model =
          { fx := (stereoCameraModelFromROS image.rgb_camera_info
              image.depth_camera_info lt none).fx
            fy := (stereoCameraModelFromROS image.rgb_camera_info
              image.depth_camera_info lt none).fy
            cx := (stereoCameraModelFromROS image.rgb_camera_info
              image.depth_camera_info lt none).cx
            cy := (stereoCameraModelFromROS image.rgb_camera_info
              image.depth_camera_info lt none).cy
            baseline := tr.x
            localTransform := (stereoCameraModelFromROS image.rgb_camera_info
              image.depth_camera_info lt none).localTransform
            width := (stereoCameraModelFromROS image.rgb_camera_info
              image.depth_camera_info lt none).width
            height := (stereoCameraModelFromROS image.rgb_camera_info
              image.depth_camera_info lt none).height }) ∧
    (∀ (env : Env) (st : WarnState) (li ri : CameraInfoMsg)
      (m : StereoCameraModel),
      (recoverBaseline env st li ri m).used = true →
      m.baseline = 0 ∧ env.alreadyRectified = true) ∧
    (∀ (env : Env) (st : WarnState)
      (ts : List (ImageMsg × ImageMsg × CameraInfoMsg × CameraInfoMsg)),
      st.warned = false →
      countDiag Diag.fallbackBaseline (runCallback env st ts).2.1 =
        if (runCallback env st ts).2.2 then 1 else 0) ∧
    (∀ (env : Env) (st : WarnState) (ts : List RGBDImageMsg),
      st.warned = false →
      countDiag Diag.fallbackBaseline (runCallbackRGBD env st ts).2.1 =
        if (runCallbackRGBD env st ts).2.2 then 1 else 0) := by
  refine ⟨?_, ?_, ?_, ?_, ?_⟩
  · intro env st l r cl cr lt tr hp hsl hsr hlt hld hrd hrect hb0 hfbt hx
    have hfb := recoverBaseline_zero_pos env st cl cr
      (stereoCameraModelFromROS cl cr lt none) tr hb0 hrect hfbt hx
    rw [callback_rect_eq env st l r cl cr lt hp hsl hsr hlt hld hrd hrect,
      callbackRest_dispatch env st l r cl cr (frameStamp l r)
        [(env.frameId, l.frame_id, frameStamp l r)] lt none
        (by rw [hfb]; rintro ⟨-, hle⟩; exact absurd hle (not_le.mpr hx))]
    exact ⟨_, _, rfl, by rw [hfb]⟩
  · intro env st image lt tr hp hsl hsr hlt hld hrd hrect hb0 hfbt hx
    have hfb := recoverBaseline_zero_pos env st image.rgb_camera_info
      image.depth_camera_info
      (stereoCameraModelFromROS image.rgb_camera_info image.depth_camera_info
        lt none) tr hb0 hrect hfbt hx
    rw [callbackRGBD_rect_eq env st image lt hp hsl hsr hlt hld hrd hrect,
      callbackRGBDRest_dispatch env st image image.left image.right
        (frameStamp image.left image.right)
        [(env.frameId, image.left.frame_id, frameStamp image.left image.right)]
        lt
        (by rw [hfb]; rintro ⟨-, hle⟩; exact absurd hle (not_le.mpr hx))]
    exact ⟨_, _, rfl, by rw [hfb]⟩
  · exact recoverBaseline_used_imp
  · intro env st ts hw
    rw [runCallback_count_fallback, hw]
    simp
  · intro env st ts hw
    rw [runCallbackRGBD_count_fallback, hw]
    simp

/-- Environment for the C2 counterexample: running, NOT already
rectified, with a tf lookup that always answers the identity
transform. -/
def envC2 : Env :=
  { isPaused := false, alreadyRectified := false, keepColor := false
    frameId := "base", getTransform := tfIdentityFix, conv := convFix }

/-- The C2 counterexample input: a well-formed RGBD frame. -/
def imgC2 : RGBDImageMsg :=
  { frame_id := "cam", rgb_camera_info := infoFix
    depth_camera_info := depthInfoFix
    left := leftMono8Fix, right := rightMono8Fix }

/-- C2 counterexample: with already-rectified = false and the
calibration lookup answering an IDENTITY transform, the RGBD path does
NOT drop the frame — it dispatches it — because the RGBD path (source
lines 357-368) only checks for a null transform and has no identity
check; this refutes the claim that the identity-drop holds in both
paths. -/
theorem claim_C2_counterexample :
    envC2.alreadyRectified = false ∧
    envC2.getTransform imgC2.depth_camera_info.frame_id
      imgC2.rgb_camera_info.frame_id imgC2.rgb_camera_info.stamp =
      some { x := 0, isIdentity := true } ∧
    ∃ d h,
      (callbackRGBD envC2 { warned := false, shown := false } imgC2).result =
        CallbackResult.dispatched d h := by
  refine ⟨rfl, rfl, ?_⟩
  rw [callbackRGBD_norect_eq envC2 { warned := false, shown := false } imgC2
      { x := 0, isIdentity := true } { x := 0, isIdentity := true } rfl
      (by decide) (by decide) rfl (by decide) (by decide) rfl rfl,
    callbackRGBDRest_dispatch envC2 { warned := false, shown := false } imgC2
      imgC2.left imgC2.right (frameStamp imgC2.left imgC2.right)
      [(envC2.frameId, imgC2.left.frame_id, frameStamp imgC2.left imgC2.right),
       (imgC2.depth_camera_info.frame_id, imgC2.rgb_camera_info.frame_id,
        imgC2.rgb_camera_info.stamp)]
      { x := 0, isIdentity := true }
      (by rintro ⟨ha, -⟩; simp [envC2] at ha)]
  exact ⟨_, _, rfl⟩

/-- C2 (amended): with already-rectified = false, the four-stream path
drops the frame with the missing-calibration diagnostic when the
calibration lookup is null and with the degenerate-calibration
diagnostic when it returns an identity transform; the RGBD path drops
the frame only when the lookup is null (missing-calibration), and
never emits the degenerate-calibration drop at all. -/
theorem claim_C2 :
    (∀ (env : Env) (st : WarnState) (l r : ImageMsg) (cl cr : CameraInfoMsg)
      (lt : Transform),
      env.isPaused = false →
      supportedEncoding l.encoding = true →
      supportedEncoding r.encoding = true →
      env.getTransform env.frameId l.frame_id (frameStamp l r) = some lt →
      l.data.length ≠ 0 → r.data.length ≠ 0 →
      env.alreadyRectified = false →
      env.getTransform cr.frame_id cl.frame_id cl.stamp = none →
      (callback env st l r cl cr).result =
        CallbackResult.droppedMissingCalibration ∧
      Diag.missingCalibration ∈ (callback env st l r cl cr).diags) ∧
    (∀ (env : Env) (st : WarnState) (l r : ImageMsg) (cl cr : CameraInfoMsg)
      (lt tr : Transform),
      env.isPaused = false →
      supportedEncoding l.encoding = true →
      supportedEncoding r.encoding = true →
      env.getTransform env.frameId l.frame_id (frameStamp l r) = some lt →
      l.data.length ≠ 0 → r.data.length ≠ 0 →
      env.alreadyRectified = false →
      env.getTransform cr.frame_id cl.frame_id cl.stamp = some tr →
      tr.isIdentity = true →
      (callback env st l r cl cr).result =
        CallbackResult.droppedDegenerateCalibration ∧
      Diag.degenerateCalibration ∈ (callback env st l r cl cr).diags) ∧
    (∀ (env : Env) (st : WarnState) (image : RGBDImageMsg) (lt : Transform),
      env.isPaused = false →
      supportedEncoding image.left.encoding = true →
      supportedEncoding image.right.encoding = true →
      env.getTransform env.frameId image.left.frame_id
        (frameStamp image.left image.right) = some lt →
      image.left.data.length ≠ 0 → image.right.data.length ≠ 0 →
      env.alreadyRectified = false →
      env.getTransform image.depth_camera_info.frame_id
        image.rgb_camera_info.frame_id image.rgb_camera_info.stamp = none →
      (callbackRGBD env st image).result =
        CallbackResult.droppedMissingCalibration ∧
      Diag.missingCalibration ∈ (callbackRGBD env st image).diags) ∧
    (∀ (env : Env) (st : WarnState) (image : RGBDImageMsg),
      (callbackRGBD env st image).result ≠
        CallbackResult.droppedDegenerateCalibration) := by
  refine ⟨?_, ?_, ?_, ?_⟩
  · intro env st l r cl cr lt hp hsl hsr hlt hld hrd hrect hst
    rw [callback_norect_missing env st l r cl cr lt hp hsl hsr hlt hld hrd
      hrect hst]
    simp
  · intro env st l r cl cr lt tr hp hsl hsr hlt hld hrd hrect hst hid
    rw [callback_norect_degenerate env st l r cl cr lt tr hp hsl hsr hlt hld
      hrd hrect hst hid]
    simp
  · intro env st image lt hp hsl hsr hlt hld hrd hrect hst
    rw [callbackRGBD_norect_missing env st image lt hp hsl hsr hlt hld hrd
      hrect hst]
    simp
  · intro env st image
    unfold callbackRGBD callbackRGBD.callbackRGBDBody
      callbackRGBD.callbackRGBDRest
    dsimp only
    repeat' split
    all_goals simp

/-! Synchronizer lemmas for the flush claim. -/

theorem mem_pushBounded (qs : Nat) (q : List StreamMsg) (m m2 : StreamMsg)
    (h : m2 ∈ pushBounded qs q m) : m2 ∈ q ∨ m2 = m := by
  unfold pushBounded at h
  dsimp only at h
  split at h
  · simpa using List.mem_of_mem_drop h
  · simpa using h

theorem takeStamp_mem (q : List StreamMsg) (t : Nat) (m : StreamMsg)
    (h : takeStamp q t = some m) : m ∈ q :=
  List.mem_of_find?_eq_some h

theorem eraseStamp_subset (q : List StreamMsg) (t : Nat) :
    eraseStamp q t ⊆ q :=
  List.eraseP_subset _

theorem tryCorrelate_pending (s : SyncState) (S : List StreamMsg)
    (hs : pendingIn s S) : pendingIn (tryCorrelate s).1 S := by
  obtain ⟨h1, h2, h3, h4⟩ := hs
  unfold tryCorrelate
  repeat' split
  all_goals first
    | exact ⟨h1, h2, h3, h4⟩
    | exact ⟨fun m hm => h1 m (eraseStamp_subset _ _ hm),
        fun m hm => h2 m (eraseStamp_subset _ _ hm),
        fun m hm => h3 m (eraseStamp_subset _ _ hm),
        fun m hm => h4 m (eraseStamp_subset _ _ hm)⟩

theorem tryCorrelate_emit (s : SyncState) (S : List StreamMsg)
    (hs : pendingIn s S) (t : SyncTuple)
    (h : (tryCorrelate s).2 = some t) : tupleFrom t S := by
  obtain ⟨h1, h2, h3, h4⟩ := hs
  unfold tryCorrelate at h
  repeat' split at h
  all_goals cases h
  all_goals exact ⟨h1 _ (List.mem_of_find?_eq_some (by assumption)),
    h2 _ (takeStamp_mem _ _ _ (by assumption)),
    h3 _ (takeStamp_mem _ _ _ (by assumption)),
    h4 _ (takeStamp_mem _ _ _ (by assumption))⟩

theorem pushBounded_pending (qs : Nat) (q : List StreamMsg) (m : StreamMsg)
    (S : List StreamMsg) (hq : ∀ x ∈ q, x ∈ S) :
    ∀ x ∈ pushBounded qs q m, x ∈ m :: S := by
  intro x hx
  rcases mem_pushBounded qs q m x hx with h | h
  · exact List.mem_cons_of_mem _ (hq x h)
  · simp [h]

theorem setQueue_push_pending (s : SyncState) (i : StreamId) (m : StreamMsg)
    (S : List StreamMsg) (hs : pendingIn s S) :
    pendingIn (setQueue s i (pushBounded s.queueSize (getQueue s i) m))
      (m :: S) := by
  obtain ⟨h1, h2, h3, h4⟩ := hs
  cases i <;>
    exact ⟨by first
        | exact pushBounded_pending _ _ _ _ (by assumption)
        | exact fun x hx => List.mem_cons_of_mem _ (h1 x hx),
      by first
        | exact pushBounded_pending _ _ _ _ (by assumption)
        | exact fun x hx => List.mem_cons_of_mem _ (h2 x hx),
      by first
        | exact pushBounded_pending _ _ _ _ (by assumption)
        | exact fun x hx => List.mem_cons_of_mem _ (h3 x hx),
      by first
        | exact pushBounded_pending _ _ _ _ (by assumption)
        | exact fun x hx => List.mem_cons_of_mem _ (h4 x hx)⟩

theorem deliver_pending (s : SyncState) (i : StreamId) (m : StreamMsg)
    (S : List StreamMsg) (hs : pendingIn s S) :
    pendingIn (deliver s i m).1 (m :: S) :=
  tryCorrelate_pending _ _ (setQueue_push_pending s i m S hs)

theorem deliver_emit (s : SyncState) (i : StreamId) (m : StreamMsg)
    (S : List StreamMsg) (hs : pendingIn s S) (t : SyncTuple)
    (h : (deliver s i m).2 = some t) : tupleFrom t (m :: S) :=
  tryCorrelate_emit _ _ (setQueue_push_pending s i m S hs) t h

theorem tupleFrom_mono (t : SyncTuple) (S S2 : List StreamMsg)
    (h : ∀ x ∈ S, x ∈ S2) (ht : tupleFrom t S) : tupleFrom t S2 :=
  ⟨h _ ht.1, h _ ht.2.1, h _ ht.2.2.1, h _ ht.2.2.2⟩

theorem processAll_from :
    ∀ (msgs : List (StreamId × StreamMsg)) (s : SyncState)
      (S : List StreamMsg), pendingIn s S →
    ∀ t ∈ (processAll s msgs).2, tupleFrom t (S ++ msgs.map Prod.snd) := by
  intro msgs
  induction msgs with
  | nil => intro s S hs t ht; simp [processAll] at ht
  | cons im rest ih =>
    intro s S hs t ht
    obtain ⟨i, m⟩ := im
    simp only [processAll, List.mem_append] at ht
    rcases ht with ht | ht
    · have hemit : (deliver s i m).2 = some t := by
        rcases hd : (deliver s i m).2 with - | t2
        · rw [hd] at ht; simp at ht
        · rw [hd] at ht; simp at ht; rw [ht]
      have := deliver_emit s i m S hs t hemit
      refine tupleFrom_mono t (m :: S) _ ?_ this
      intro x hx
      simp only [List.map_cons, List.mem_append, List.mem_cons] at hx ⊢
      tauto
    · have := ih (deliver s i m).1 (m :: S) (deliver_pending s i m S hs) t ht
      refine tupleFrom_mono t ((m :: S) ++ rest.map Prod.snd) _ ?_ this
      intro x hx
      simp only [List.map_cons, List.mem_append, List.mem_cons] at hx ⊢
      tauto

/-- C9: flushing constructs a fresh synchronizer with the configured
queue size and empty pending buffers (rebuild, not mutate — the old
state is discarded); every tuple emitted after a flush is built
entirely from messages delivered after the flush, so no pre-flush
message (anything outside the post-flush deliveries) can appear in any
component of a post-flush correlation; and the reconfiguration path
flushes exactly when the queue-size configuration changes. -/
theorem claim_C9 :
    (∀ (qs : Nat) (old : SyncState),
      flushCallbacks qs old = mkSynchronizer qs ∧
      (flushCallbacks qs old).q1 = [] ∧ (flushCallbacks qs old).q2 = [] ∧
      (flushCallbacks qs old).q3 = [] ∧ (flushCallbacks qs old).q4 = [] ∧
      (flushCallbacks qs old).queueSize = qs) ∧
    (∀ (qs : Nat) (old : SyncState) (msgs : List (StreamId × StreamMsg))
      (t : SyncTuple),
      t ∈ (processAll (flushCallbacks qs old) msgs).2 →
      tupleFrom t (msgs.map Prod.snd) ∧
      ∀ m : StreamMsg, m ∉ msgs.map Prod.snd →
        t.1 ≠ m ∧ t.2.1 ≠ m ∧ t.2.2.1 ≠ m ∧ t.2.2.2 ≠ m) ∧
    (∀ (qs : Nat) (s : SyncState), qs ≠ s.queueSize →
      reconfigure qs s = flushCallbacks qs s) := by
  refine ⟨?_, ?_, ?_⟩
  · intro qs old
    exact ⟨rfl, rfl, rfl, rfl, rfl, rfl⟩
  · intro qs old msgs t ht
    have hfrom := processAll_from msgs (flushCallbacks qs old) []
      ⟨fun m hm => absurd hm (List.not_mem_nil m),
       fun m hm => absurd hm (List.not_mem_nil m),
       fun m hm => absurd hm (List.not_mem_nil m),
       fun m hm => absurd hm (List.not_mem_nil m)⟩ t ht
    rw [List.nil_append] at hfrom
    refine ⟨hfrom, ?_⟩
    intro m hm
    obtain ⟨f1, f2, f3, f4⟩ := hfrom
    exact ⟨fun he => hm (he ▸ f1), fun he => hm (he ▸ f2),
      fun he => hm (he ▸ f3), fun he => hm (he ▸ f4)⟩
  · intro qs s h
    unfold reconfigure
    rw [if_pos h]

/-! Additional fixtures and concrete evaluation lemmas for witnesses. -/

/-- A right camera info with Tx = 0 (derived baseline 0). -/
def depth0Fix : CameraInfoMsg := { infoFix with frame_id := "depth" }

/-- The RGBD fixture for the C1 fallback: derived baseline 0 from
`depth0Fix`. -/
def imgC1Fix : RGBDImageMsg :=
  { frame_id := "cam", rgb_camera_info := infoFix
    depth_camera_info := depth0Fix
    left := leftMono8Fix, right := rightMono8Fix }

/-- A right camera info with Tx = 5 (derived baseline -5). -/
def depthNegFix : CameraInfoMsg := { infoFix with frame_id := "depth", Tx := 5 }

/-- A right camera info with Tx = -20 (derived baseline 20). -/
def depthBigFix : CameraInfoMsg := { infoFix with frame_id := "depth", Tx := -20 }

/-- A tf lookup answering a transform with positive x translation. -/
def tfPosFix : String → String → Nat → Option Transform :=
  fun _ _ _ => some { x := 2, isIdentity := false }

/-- A tf lookup that always fails (null transform). -/
def tfNoneFix : String → String → Nat → Option Transform :=
  fun _ _ _ => none

/-- A tf lookup that answers only body-frame queries (target frame
"base") and fails on everything else. -/
def tfBodyOnlyFix : String → String → Nat → Option Transform :=
  fun a _ _ => if a = "base" then some { x := 0, isIdentity := false } else none

/-- A tf lookup answering body-frame queries with a plain transform and
everything else with the identity transform. -/
def tfBodyIdFix : String → String → Nat → Option Transform :=
  fun a _ _ =>
    if a = "base" then some { x := 0, isIdentity := false }
    else some { x := 0, isIdentity := true }

/-- An image with an unsupported encoding. -/
def badEncFix : ImageMsg :=
  { encoding := "yuv422", stamp := 1, frame_id := "rgb", data := [1] }

/-- A left image with an empty pixel buffer. -/
def emptyLeftFix : ImageMsg := { leftMono8Fix with data := [] }

/-- Environment with a zero-baseline-recovery tf lookup (positive x). -/
def envC1 : Env :=
  { isPaused := false, alreadyRectified := true, keepColor := false
    frameId := "base", getTransform := tfPosFix, conv := convFix }

/-- Not-already-rectified environment with a plain tf lookup. -/
def envNorectFix : Env := { envC4 with alreadyRectified := false }

/-- Environment whose tf lookup always fails. -/
def envNoneFix : Env := { envC4 with getTransform := tfNoneFix }

/-- Not-already-rectified environment whose calibration lookup fails. -/
def envBodyOnlyFix : Env :=
  { envC4 with alreadyRectified := false, getTransform := tfBodyOnlyFix }

/-- Not-already-rectified environment whose calibration lookup answers
identity. -/
def envBodyIdFix : Env :=
  { envC4 with alreadyRectified := false, getTransform := tfBodyIdFix }

/-- The RGBD fixture with a 20-meter baseline. -/
def imgBigFix : RGBDImageMsg := { imgC4 with depth_camera_info := depthBigFix }

/-- The stereo model derived from `infoFix`/`depthInfoFix`. -/
def MFix : StereoCameraModel :=
  { fx := 1, fy := 1, cx := 0, cy := 0, baseline := 5
    localTransform := { x := 0, isIdentity := false }, width := 4, height := 3 }

/-- The SensorData dispatched by the four-stream fixture call. -/
def dFix : SensorData :=
  { left := { encoding := MONO8, data := [7] }
    right := { encoding := MONO8, data := [8] }
    model := MFix, stamp := 2 }

/-- The Header dispatched by the four-stream fixture call. -/
def hFix : Header := { stamp := 2, frame_id := "rgb" }

/-- Concrete evaluation of the four-stream callback on the fixture
frame: dispatched with baseline 5, no diagnostics. -/
theorem callback_fix_eval :
    callback envC4 { warned := false, shown := false } leftMono8Fix
      rightMono8Fix infoFix depthInfoFix =
    { state := { warned := false, shown := false }, diags := []
      tfQueries := [("base", "rgb", 2)], usedFallback := false
      result := CallbackResult.dispatched dFix hFix } := by
  have hM : stereoCameraModelFromROS infoFix depthInfoFix
      { x := 0, isIdentity := false } none = MFix := by
    simp [stereoCameraModelFromROS, infoFix, depthInfoFix, MFix]
  rw [callback_rect_eq envC4 { warned := false, shown := false } leftMono8Fix
      rightMono8Fix infoFix depthInfoFix { x := 0, isIdentity := false } rfl
      (by decide) (by decide) rfl (by decide) (by decide) rfl,
    callbackRest_dispatch envC4 { warned := false, shown := false }
      leftMono8Fix rightMono8Fix infoFix depthInfoFix
      (frameStamp leftMono8Fix rightMono8Fix)
      [(envC4.frameId, leftMono8Fix.frame_id,
        frameStamp leftMono8Fix rightMono8Fix)]
      { x := 0, isIdentity := false } none
      (by rw [hM, recoverBaseline_nonzero _ _ _ _ _ (by norm_num [MFix])]
          rintro ⟨-, hle⟩
          norm_num [MFix] at hle),
    hM, recoverBaseline_nonzero _ _ _ _ _ (by norm_num [MFix])]
  norm_num [largeBaselineCheck, MFix, toCvCopy, leftTarget, rightTarget,
    envC4, leftMono8Fix, rightMono8Fix, frameStamp, dFix, hFix,
    TYPE_8UC1, MONO8, convFix]

/-- The SensorData dispatched by the RGBD fixture call (right image
left unconverted — the source bug). -/
def dRGBDFix : SensorData :=
  { left := { encoding := MONO8, data := [7] }
    right := { encoding := BGR8, data := [8, 9, 10] }
    model := MFix, stamp := 1 }

/-- The Header dispatched by the RGBD fixture call. -/
def hRGBDFix : Header := { stamp := 1, frame_id := "cam" }

/-- Concrete evaluation of the RGBD callback on the fixture frame. -/
theorem callbackRGBD_fix_eval :
    callbackRGBD envC4 { warned := false, shown := false } imgC4 =
    { state := { warned := false, shown := false }, diags := []
      tfQueries := [("base", "rgb", 1)], usedFallback := false
      result := CallbackResult.dispatched dRGBDFix hRGBDFix } := by
  have hM : stereoCameraModelFromROS imgC4.rgb_camera_info
      imgC4.depth_camera_info { x := 0, isIdentity := false } none = MFix := by
    simp [stereoCameraModelFromROS, imgC4, infoFix, depthInfoFix, MFix]
  rw [callbackRGBD_rect_eq envC4 { warned := false, shown := false } imgC4
      { x := 0, isIdentity := false } rfl (by decide) (by decide) rfl
      (by decide) (by decide) rfl,
    callbackRGBDRest_dispatch envC4 { warned := false, shown := false } imgC4
      imgC4.left imgC4.right (frameStamp imgC4.left imgC4.right)
      [(envC4.frameId, imgC4.left.frame_id, frameStamp imgC4.left imgC4.right)]
      { x := 0, isIdentity := false }
      (by rw [hM, recoverBaseline_nonzero _ _ _ _ _ (by norm_num [MFix])]
          rintro ⟨-, hle⟩
          norm_num [MFix] at hle),
    hM, recoverBaseline_nonzero _ _ _ _ _ (by norm_num [MFix])]
  norm_num [largeBaselineCheck, MFix, normalizeLeftRGBD, normalizeRightRGBD,
    cvtColor, envC4, imgC4, leftMono8Fix, rightBgr8Fix, frameStamp,
    dRGBDFix, hRGBDFix, TYPE_8UC1, MONO8, BGR8, convFix]

/-! Witnesses: each applies its claim's theorem at concrete inputs,
discharging every hypothesis. -/

/-- Witness for C1 at concrete fixtures (baseline 0, recovery x = 2). -/
theorem claim_C1_witness :
    (∃ d h,
      (callback envC1 { warned := false, shown := false } leftMono8Fix
        rightMono8Fix infoFix depth0Fix).result =
        CallbackResult.dispatched d h ∧
      d.model =
        { fx := (stereoCameraModelFromROS infoFix depth0Fix
            { x := 2, isIdentity := false } none).fx
          fy := (stereoCameraModelFromROS infoFix depth0Fix
            { x := 2, isIdentity := false } none).fy
          cx := (stereoCameraModelFromROS infoFix depth0Fix
            { x := 2, isIdentity := false } none).cx
          cy := (stereoCameraModelFromROS infoFix depth0Fix
            { x := 2, isIdentity := false } none).cy
          baseline := ({ x := 2, isIdentity := false } : Transform).x
          localTransform := (stereoCameraModelFromROS infoFix depth0Fix
            { x := 2, isIdentity := false } none).localTransform
          width := (stereoCameraModelFromROS infoFix depth0Fix
            { x := 2, isIdentity := false } none).width
          height := (stereoCameraModelFromROS infoFix depth0Fix
            { x := 2, isIdentity := false } none).height }) ∧
    (∃ d h,
      (callbackRGBD envC1 { warned := false, shown := false } imgC1Fix).result =
        CallbackResult.dispatched d h ∧
      d.model =
        { fx := (stereoCameraModelFromROS imgC1Fix.rgb_camera_info
            imgC1Fix.depth_camera_info { x := 2, isIdentity := false } none).fx
          fy := (stereoCameraModelFromROS imgC1Fix.rgb_camera_info
            imgC1Fix.depth_camera_info { x := 2, isIdentity := false } none).fy
          cx := (stereoCameraModelFromROS imgC1Fix.rgb_camera_info
            imgC1Fix.depth_camera_info { x := 2, isIdentity := false } none).cx
          cy := (stereoCameraModelFromROS imgC1Fix.rgb_camera_info
            imgC1Fix.depth_camera_info { x := 2, isIdentity := false } none).cy
          baseline := ({ x := 2, isIdentity := false } : Transform).x
          localTransform := (stereoCameraModelFromROS imgC1Fix.rgb_camera_info
            imgC1Fix.depth_camera_info
            { x := 2, isIdentity := false } none).localTransform
          width := (stereoCameraModelFromROS imgC1Fix.rgb_camera_info
            imgC1Fix.depth_camera_info { x := 2, isIdentity := false } none).width
          height := (stereoCameraModelFromROS imgC1Fix.rgb_camera_info
            imgC1Fix.depth_camera_info
            { x := 2, isIdentity := false } none).height }) ∧
    ((stereoCameraModelFromROS infoFix depth0Fix
        { x := 2, isIdentity := false } none).baseline = 0 ∧
      envC1.alreadyRectified = true) ∧
    (countDiag Diag.fallbackBaseline
        (runCallback envC1 { warned := false, shown := false } []).2.1 =
      if (runCallback envC1 { warned := false, shown := false } []).2.2
      then 1 else 0) ∧
    (countDiag Diag.fallbackBaseline
        (runCallbackRGBD envC1 { warned := false, shown := false } []).2.1 =
      if (runCallbackRGBD envC1 { warned := false, shown := false } []).2.2
      then 1 else 0) := by
  have hb0 : (stereoCameraModelFromROS infoFix depth0Fix
      { x := 2, isIdentity := false } none).baseline = 0 := by
    simp [stereoCameraModelFromROS, infoFix, depth0Fix]
  refine ⟨?_, ?_, ?_, ?_, ?_⟩
  · exact claim_C1.1 envC1 { warned := false, shown := false } leftMono8Fix
      rightMono8Fix infoFix depth0Fix { x := 2, isIdentity := false }
      { x := 2, isIdentity := false } rfl (by decide) (by decide) rfl
      (by decide) (by decide) rfl hb0 rfl (by norm_num)
  · exact claim_C1.2.1 envC1 { warned := false, shown := false } imgC1Fix
      { x := 2, isIdentity := false } { x := 2, isIdentity := false } rfl
      (by decide) (by decide) rfl (by decide) (by decide) rfl hb0 rfl
      (by norm_num)
  · exact claim_C1.2.2.1 envC1 { warned := false, shown := false } infoFix
      depth0Fix (stereoCameraModelFromROS infoFix depth0Fix
        { x := 2, isIdentity := false } none)
      (by rw [recoverBaseline_zero_pos envC1 { warned := false, shown := false }
          infoFix depth0Fix _ { x := 2, isIdentity := false } hb0 rfl rfl
          (by norm_num)])
  · exact claim_C1.2.2.2.1 envC1 { warned := false, shown := false } [] rfl
  · exact claim_C1.2.2.2.2 envC1 { warned := false, shown := false } [] rfl

/-- Witness for the amended C2 at concrete fixtures. -/
theorem claim_C2_witness :
    ((callback envBodyOnlyFix { warned := false, shown := false } leftMono8Fix
        rightMono8Fix infoFix depthInfoFix).result =
        CallbackResult.droppedMissingCalibration ∧
      Diag.missingCalibration ∈
        (callback envBodyOnlyFix { warned := false, shown := false }
          leftMono8Fix rightMono8Fix infoFix depthInfoFix).diags) ∧
    ((callback envBodyIdFix { warned := false, shown := false } leftMono8Fix
        rightMono8Fix infoFix depthInfoFix).result =
        CallbackResult.droppedDegenerateCalibration ∧
      Diag.degenerateCalibration ∈
        (callback envBodyIdFix { warned := false, shown := false }
          leftMono8Fix rightMono8Fix infoFix depthInfoFix).diags) ∧
    ((callbackRGBD envBodyOnlyFix { warned := false, shown := false }
        imgC4).result = CallbackResult.droppedMissingCalibration ∧
      Diag.missingCalibration ∈
        (callbackRGBD envBodyOnlyFix { warned := false, shown := false }
          imgC4).diags) ∧
    (callbackRGBD envBodyIdFix { warned := false, shown := false }
        imgC4).result ≠ CallbackResult.droppedDegenerateCalibration := by
  refine ⟨?_, ?_, ?_, ?_⟩
  · exact claim_C2.1 envBodyOnlyFix { warned := false, shown := false }
      leftMono8Fix rightMono8Fix infoFix depthInfoFix
      { x := 0, isIdentity := false } rfl (by decide) (by decide) rfl
      (by decide) (by decide) rfl rfl
  · exact claim_C2.2.1 envBodyIdFix { warned := false, shown := false }
      leftMono8Fix rightMono8Fix infoFix depthInfoFix
      { x := 0, isIdentity := false } { x := 0, isIdentity := true } rfl
      (by decide) (by decide) rfl (by decide) (by decide) rfl rfl rfl
  · exact claim_C2.2.2.1 envBodyOnlyFix { warned := false, shown := false }
      imgC4 { x := 0, isIdentity := false } rfl (by decide) (by decide) rfl
      (by decide) (by decide) rfl rfl
  · exact claim_C2.2.2.2 envBodyIdFix { warned := false, shown := false } imgC4

/-- Witness for C3 at the dispatched fixture frames (pass-through of an
already-mono8 left image, both paths). -/
theorem claim_C3_witness :
    dFix.left = { encoding := leftMono8Fix.encoding
                  data := leftMono8Fix.data } ∧
    dRGBDFix.left = { encoding := imgC4.left.encoding
                      data := imgC4.left.data } :=
  ⟨(claim_C3.1 envC4 { warned := false, shown := false } leftMono8Fix
      rightMono8Fix infoFix depthInfoFix dFix hFix
      (by rw [callback_fix_eval])).1 (Or.inr rfl),
   (claim_C3.2 envC4 { warned := false, shown := false } imgC4 dRGBDFix
      hRGBDFix (by rw [callbackRGBD_fix_eval])).1 (Or.inr rfl)⟩

/-- Witness for C5 at a concrete negative-baseline fixture. -/
theorem claim_C5_witness :
    ((callback envC4 { warned := false, shown := false } leftMono8Fix
        rightMono8Fix infoFix depthNegFix).result =
        CallbackResult.droppedInvalidBaseline ∧
      Diag.invalidBaseline ∈
        (callback envC4 { warned := false, shown := false } leftMono8Fix
          rightMono8Fix infoFix depthNegFix).diags) ∧
    ((callbackRGBD envC4 { warned := false, shown := false }
        { imgC4 with depth_camera_info := depthNegFix }).result =
        CallbackResult.droppedInvalidBaseline ∧
      Diag.invalidBaseline ∈
        (callbackRGBD envC4 { warned := false, shown := false }
          { imgC4 with depth_camera_info := depthNegFix }).diags) := by
  have hM : stereoCameraModelFromROS infoFix depthNegFix
      { x := 0, isIdentity := false } none =
      { fx := 1, fy := 1, cx := 0, cy := 0, baseline := -5
        localTransform := { x := 0, isIdentity := false }
        width := 4, height := 3 } := by
    simp [stereoCameraModelFromROS, infoFix, depthNegFix]
  constructor
  · exact claim_C5.1 envC4 { warned := false, shown := false } leftMono8Fix
      rightMono8Fix infoFix depthNegFix { x := 0, isIdentity := false } rfl
      (by decide) (by decide) rfl (by decide) (by decide) rfl
      (by rw [hM, recoverBaseline_nonzero _ _ _ _ _ (by norm_num)]
          norm_num)
  · exact claim_C5.2 envC4 { warned := false, shown := false }
      { imgC4 with depth_camera_info := depthNegFix }
      { x := 0, isIdentity := false } rfl (by decide) (by decide) rfl
      (by decide) (by decide) rfl
      (by rw [show ({ imgC4 with depth_camera_info := depthNegFix } :
            RGBDImageMsg).rgb_camera_info = infoFix from rfl,
          show ({ imgC4 with depth_camera_info := depthNegFix } :
            RGBDImageMsg).depth_camera_info = depthNegFix from rfl,
          hM, recoverBaseline_nonzero _ _ _ _ _ (by norm_num)]
          norm_num)

/-- Witness for C6 at a concrete unsupported-encoding frame. -/
theorem claim_C6_witness :
    (callback envC4 { warned := false, shown := false } badEncFix
      rightMono8Fix infoFix depthInfoFix =
      { state := { warned := false, shown := false }
        diags := [Diag.badEncoding], tfQueries := []
        usedFallback := false
        result := CallbackResult.droppedBadEncoding }) ∧
    (callbackRGBD envC4 { warned := false, shown := false }
      { imgC4 with left := badEncFix } =
      { state := { warned := false, shown := false }
        diags := [Diag.badEncoding], tfQueries := []
        usedFallback := false
        result := CallbackResult.droppedBadEncoding }) :=
  ⟨claim_C6.1 envC4 { warned := false, shown := false } badEncFix
      rightMono8Fix infoFix depthInfoFix rfl (Or.inl (by decide)),
   claim_C6.2 envC4 { warned := false, shown := false }
      { imgC4 with left := badEncFix } rfl (Or.inl (by decide))⟩

/-- Witness for C7 at concrete 20-meter-baseline fixtures. -/
theorem claim_C7_witness :
    (∃ d h, (callback envC4 { warned := false, shown := false } leftMono8Fix
        rightMono8Fix infoFix depthBigFix).result =
        CallbackResult.dispatched d h) ∧
    (∃ d h, (callback envNorectFix { warned := false, shown := false }
        leftMono8Fix rightMono8Fix infoFix depthBigFix).result =
        CallbackResult.dispatched d h) ∧
    (∃ d h, (callbackRGBD envC4 { warned := false, shown := false }
        imgBigFix).result = CallbackResult.dispatched d h) ∧
    (countDiag Diag.largeBaseline
        (runCallback envC4 { warned := false, shown := false } []).2.1 ≤ 1) ∧
    (countDiag Diag.largeBaseline
        (runCallbackRGBD envC4 { warned := false, shown := false } []).2.1
      ≤ 1) := by
  have hM : ∀ str, stereoCameraModelFromROS infoFix depthBigFix
      { x := 0, isIdentity := false } str =
      { fx := 1, fy := 1, cx := 0, cy := 0, baseline := 20
        localTransform := { x := 0, isIdentity := false }
        width := 4, height := 3 } := by
    intro str
    simp [stereoCameraModelFromROS, infoFix, depthBigFix]
  refine ⟨?_, ?_, ?_, ?_, ?_⟩
  · exact claim_C7.1 envC4 { warned := false, shown := false } leftMono8Fix
      rightMono8Fix infoFix depthBigFix { x := 0, isIdentity := false } rfl
      (by decide) (by decide) rfl (by decide) (by decide) rfl
      (by rw [hM, recoverBaseline_nonzero _ _ _ _ _ (by norm_num)]
          norm_num)
  · exact claim_C7.2.1 envNorectFix { warned := false, shown := false }
      leftMono8Fix rightMono8Fix infoFix depthBigFix
      { x := 0, isIdentity := false } { x := 0, isIdentity := false } rfl
      (by decide) (by decide) rfl (by decide) (by decide) rfl rfl rfl
      (by rw [hM, recoverBaseline_nonzero _ _ _ _ _ (by norm_num)]
          norm_num)
  · exact claim_C7.2.2.1 envC4 { warned := false, shown := false } imgBigFix
      { x := 0, isIdentity := false } rfl (by decide) (by decide) rfl
      (by decide) (by decide) (Or.inl rfl)
      (by rw [show (imgBigFix.rgb_camera_info : CameraInfoMsg) = infoFix
            from rfl,
          show (imgBigFix.depth_camera_info : CameraInfoMsg) = depthBigFix
            from rfl,
          hM, recoverBaseline_nonzero _ _ _ _ _ (by norm_num)]
          norm_num)
  · exact claim_C7.2.2.2.1 envC4 { warned := false, shown := false } [] rfl
  · exact claim_C7.2.2.2.2 envC4 { warned := false, shown := false } [] rfl

/-- Witness for C8 at the dispatched fixture frames. -/
theorem claim_C8_witness :
    (hFix.stamp = max leftMono8Fix.stamp rightMono8Fix.stamp ∧
      dFix.stamp = hFix.stamp ∧
      (envC4.frameId, leftMono8Fix.frame_id, hFix.stamp) ∈
        (callback envC4 { warned := false, shown := false } leftMono8Fix
          rightMono8Fix infoFix depthInfoFix).tfQueries) ∧
    (hRGBDFix.stamp = max imgC4.left.stamp imgC4.right.stamp ∧
      dRGBDFix.stamp = hRGBDFix.stamp ∧
      (envC4.frameId, imgC4.left.frame_id, hRGBDFix.stamp) ∈
        (callbackRGBD envC4 { warned := false, shown := false }
          imgC4).tfQueries) :=
  ⟨claim_C8.1 envC4 { warned := false, shown := false } leftMono8Fix
      rightMono8Fix infoFix depthInfoFix dFix hFix
      (by rw [callback_fix_eval]),
   claim_C8.2 envC4 { warned := false, shown := false } imgC4 dRGBDFix
      hRGBDFix (by rw [callbackRGBD_fix_eval])⟩

/-- A discarded pre-flush synchronizer state with one pending
message. -/
def oldSyncFix : SyncState :=
  { queueSize := 2, q1 := [{ stamp := 9, uid := 99 }]
    q2 := [], q3 := [], q4 := [] }

/-- Four post-flush deliveries sharing stamp 7. -/
def msgsFix : List (StreamId × StreamMsg) :=
  [(StreamId.one, { stamp := 7, uid := 1 }),
   (StreamId.two, { stamp := 7, uid := 2 }),
   (StreamId.three, { stamp := 7, uid := 3 }),
   (StreamId.four, { stamp := 7, uid := 4 })]

/-- The tuple the synchronizer emits from `msgsFix`. -/
def tupFix : SyncTuple :=
  ({ stamp := 7, uid := 1 }, { stamp := 7, uid := 2 },
   { stamp := 7, uid := 3 }, { stamp := 7, uid := 4 })

/-- Witness for C9: the concrete post-flush tuple is built only from
post-flush messages, and a queue-size change triggers the flush. -/
theorem claim_C9_witness :
    (tupleFrom tupFix (msgsFix.map Prod.snd) ∧
      ∀ m : StreamMsg, m ∉ msgsFix.map Prod.snd →
        tupFix.1 ≠ m ∧ tupFix.2.1 ≠ m ∧ tupFix.2.2.1 ≠ m ∧
        tupFix.2.2.2 ≠ m) ∧
    reconfigure 3 oldSyncFix = flushCallbacks 3 oldSyncFix :=
  ⟨claim_C9.2.1 2 oldSyncFix msgsFix tupFix (by decide),
   claim_C9.2.2 3 oldSyncFix (by decide)⟩

/-- Witness for C10: with an unavailable body transform the fixture
frame (with an EMPTY left image) is dropped silently, and the
empty-image diagnostic of the fixture run implies its body lookup
succeeded. -/
theorem claim_C10_witness :
    (callback envNoneFix { warned := false, shown := false } emptyLeftFix
      rightMono8Fix infoFix depthInfoFix =
      { state := { warned := false, shown := false }, diags := []
        tfQueries := [(envNoneFix.frameId, emptyLeftFix.frame_id,
          frameStamp emptyLeftFix rightMono8Fix)]
        usedFallback := false
        result := CallbackResult.droppedNoBodyTransform }) ∧
    (∃ lt, envC4.getTransform envC4.frameId emptyLeftFix.frame_id
      (frameStamp emptyLeftFix rightMono8Fix) = some lt) :=
  ⟨claim_C10.1 envNoneFix { warned := false, shown := false } emptyLeftFix
      rightMono8Fix infoFix depthInfoFix rfl (by decide) (by decide) rfl,
   claim_C10.2 envC4 { warned := false, shown := false } emptyLeftFix
      rightMono8Fix infoFix depthInfoFix (by decide)⟩

end StereoOdometry
